import Mathlib

/-!
Verification development for the SC16IS7XX dual-UART bridge driver
(files SC16IS7XX.c / SC16IS7XX.h).

The C sources are shallowly embedded: pure computations become Lean
functions on Nat / Int / Rat, register traffic is modelled by explicit
state passing through a transport interface, and concrete mock
transports (a scripted oracle and a small device simulator) replay the
scenarios the properties talk about.  Machine integers are modelled by
Nat with explicit masking where the C code masks; the C code's 32-bit
float arithmetic in the baud-rate solver is modelled by exact rational
arithmetic (at every concrete input used in a theorem below, all
intermediate float values are exactly representable, so both agree).
-/

set_option linter.unusedVariables false

/-- Error results of the driver (subset of eERRORRESULT actually used by
SC16IS7XX.c).  ERR__OUT_OF_FUEL is a model artifact: the C retry loops
(TransmitChar / ReceiveChar) are unbounded, the embedding bounds them
with fuel and returns this value on exhaustion (never reached in the
runs below). -/
inductive eERRORRESULT where
  | ERR_OK
  | ERR__PARAMETER_ERROR
  | ERR__UNKNOWN_DEVICE
  | ERR__UNKNOWN_ELEMENT
  | ERR__FREQUENCY_ERROR
  | ERR__CONFIGURATION
  | ERR__BAUDRATE_ERROR
  | ERR__NOT_SUPPORTED
  | ERR__NO_DEVICE_DETECTED
  | ERR__BAD_DATA
  | ERR__I2C_NACK
  | ERR__I2C_NACK_DATA
  | ERR__I2C_INVALID_ADDRESS
  | ERR__NOT_READY
  | ERR__NOT_IN_SLEEP_MODE
  | ERR__PERIPHERAL_NOT_VALID
  | ERR__RECEIVE_ERROR
  | ERR__BUSY
  | ERR__SPI_BUSY
  | ERR__I2C_BUSY
  | ERR__OUT_OF_FUEL
deriving DecidableEq, Repr

open eERRORRESULT

/-! Device limit constants from SC16IS7XX.h. -/

def SC16IS7XX_FREQ_MIN : ℕ := 1600
def SC16IS7XX_XTAL_FREQ_MAX : ℕ := 24000000
def SC16IS7XX_OSC_FREQ_MAX : ℕ := 80000000
def SC16IS7XX_BAUDRATE_MIN : ℕ := 100
def SC16IS7XX_BAUDRATE_MAX : ℕ := 5000000
def SC16IS7XX_IrDA_SPEED_MAX : ℕ := 115200
def SC16IS76X_IrDA_SPEED_MAX : ℕ := 1152000

/-- Device capability limits, one row per part number
(SC16IS7XX_LIMITS table in SC16IS7XX.c). -/
structure SC16IS7XX_Limits where
  I2C_CLOCK_MAX : ℕ
  SPI_CLOCK_MAX : ℕ
  IrDA_1_4_RATIO : Bool
  HAVE_GPIO : Bool
  HAVE_2_UARTS : Bool
deriving DecidableEq

/-- The SC16IS7XX_LIMITS table: SC16IS740, SC16IS741(A), SC16IS750,
SC16IS752, SC16IS760, SC16IS762. -/
def SC16IS7XX_LIMITS : List SC16IS7XX_Limits :=
  [ ⟨400000,  4000000, false, false, false⟩,
    ⟨400000,  4000000, false, false, false⟩,
    ⟨400000,  4000000, false, true,  false⟩,
    ⟨400000,  4000000, false, true,  true⟩,
    ⟨400000, 15000000, true,  true,  false⟩,
    ⟨400000, 15000000, true,  true,  true⟩ ]

def SC16IS7XX_PN_COUNT : ℕ := 6

/-- Lookup in the limits table (array indexing in C; out-of-range
indices are rejected by the callers before indexing). -/
def SC16IS7XX_limitsOf (devicePN : ℕ) : SC16IS7XX_Limits :=
  SC16IS7XX_LIMITS.getD devicePN ⟨0, 0, false, false, false⟩

/-! ## Baud Rate Divisor Solver (SC16IS7XX_SetUARTBaudRate, pure part)

The C code computes, for each candidate prescaler p ∈ {1, 4}:
  DivisorPrescalerP = (uint32_t)((float)f / ((float)b * 16.0f * p) + 0.5f)
clamped to [1, 65535], then
  BaudRatePrescalerP = f / (DivisorPrescalerP * 16 * p)
  ErrorPrescalerP    = (BaudRatePrescalerP - b) * 100000 / b
and picks prescaler 1 iff |ErrorPrescaler1| < |ErrorPrescaler4|.
The float arithmetic is modelled with exact rationals. -/

/-- Floor of a rational, computed without kernel-hostile operations. -/
def ratFloor (q : ℚ) : ℤ := Int.fdiv q.num q.den

/-- Raw divisor before clamping: (uint32_t)(f / (b * 16 * p) + 0.5f);
the C cast truncates toward zero, which on this nonnegative quantity is
the floor. -/
def DivisorPrescalerRaw (p f b : ℕ) : ℕ :=
  (ratFloor ((f : ℚ) / ((b : ℚ) * 16 * (p : ℚ)) + 1/2)).toNat

/-- Divisor clamped into [1, 65535] exactly as in the source
(if < 1 then 1; if > 0xFFFF then 65535). -/
def DivisorPrescaler (p f b : ℕ) : ℕ :=
  let d := DivisorPrescalerRaw p f b
  let d := if d < 1 then 1 else d
  if d > 0xFFFF then 65535 else d

/-- Actual baud rate obtained with prescaler p and the clamped divisor. -/
def BaudRatePrescaler (p f b : ℕ) : ℚ :=
  (f : ℚ) / ((DivisorPrescaler p f b : ℚ) * 16 * (p : ℚ))

/-- Relative baud-rate error scaled by 100000, as in the source. -/
def ErrorPrescaler (p f b : ℕ) : ℚ :=
  ((BaudRatePrescaler p f b - (b : ℚ)) * 100000) / (b : ℚ)

/-- Prescaler chosen by SC16IS7XX_SetUARTBaudRate: 1 when
|ErrorPrescaler1| < |ErrorPrescaler4|, otherwise 4 (the source tests
strict less-than, so ties go to prescaler 4). -/
def baudChosenPrescaler (f b : ℕ) : ℕ :=
  if |ErrorPrescaler 1 f b| < |ErrorPrescaler 4 f b| then 1 else 4

/-- Divisor programmed into DLL/DLH by SC16IS7XX_SetUARTBaudRate. -/
def baudChosenDivisor (f b : ℕ) : ℕ :=
  if |ErrorPrescaler 1 f b| < |ErrorPrescaler 4 f b|
  then DivisorPrescaler 1 f b else DivisorPrescaler 4 f b

/-- MCR clock-divide value programmed by SC16IS7XX_SetUARTBaudRate:
0x00 = divide-by-1, 0x80 = divide-by-4. -/
def baudChosenRegValue (f b : ℕ) : ℕ :=
  if |ErrorPrescaler 1 f b| < |ErrorPrescaler 4 f b| then 0x00 else 0x80

/-- Error value reported through the UARTbaudrateError out-parameter
(the final (int32_t) cast of the C code truncates toward zero). -/
def baudChosenError (f b : ℕ) : ℤ :=
  if |ErrorPrescaler 1 f b| < |ErrorPrescaler 4 f b|
  then Int.tdiv (ErrorPrescaler 1 f b).num (ErrorPrescaler 1 f b).den
  else Int.tdiv (ErrorPrescaler 4 f b).num (ErrorPrescaler 4 f b).den

/-! ## Frequency and baud-rate precondition checks -/

/-- Device-configuration checks of Init_SC16IS7XX (SC16IS7XX.c lines
111-114), in source order; returns the first error raised, none if the
checks pass.  Note the source only rejects nonzero frequencies above
the maxima and the both-zero case. -/
def Init_SC16IS7XX_deviceCheck (devicePN xtal osc : ℕ) : Option eERRORRESULT :=
  if devicePN ≥ SC16IS7XX_PN_COUNT then some ERR__UNKNOWN_DEVICE
  else if xtal ≠ 0 ∧ xtal > SC16IS7XX_XTAL_FREQ_MAX then some ERR__FREQUENCY_ERROR
  else if osc ≠ 0 ∧ osc > SC16IS7XX_OSC_FREQ_MAX then some ERR__FREQUENCY_ERROR
  else if xtal = 0 ∧ osc = 0 then some ERR__CONFIGURATION
  else none

/-- Limits tests of SC16IS7XX_SetUARTBaudRate (SC16IS7XX.c lines
903-911): frequency window checks, reference-frequency selection
(crystal takes precedence when both are nonzero) and baud-rate window
checks, in source order. -/
def SC16IS7XX_SetUARTBaudRate_limitsCheck (xtal osc baud : ℕ) : Option eERRORRESULT :=
  if xtal ≠ 0 ∧ xtal < SC16IS7XX_FREQ_MIN then some ERR__FREQUENCY_ERROR
  else if xtal ≠ 0 ∧ xtal > SC16IS7XX_XTAL_FREQ_MAX then some ERR__FREQUENCY_ERROR
  else if osc ≠ 0 ∧ osc < SC16IS7XX_FREQ_MIN then some ERR__FREQUENCY_ERROR
  else if osc ≠ 0 ∧ osc > SC16IS7XX_OSC_FREQ_MAX then some ERR__FREQUENCY_ERROR
  else
    let compFreq := if xtal ≠ 0 then xtal else osc
    if compFreq = 0 then some ERR__FREQUENCY_ERROR
    else if baud < SC16IS7XX_BAUDRATE_MIN then some ERR__BAUDRATE_ERROR
    else if baud > SC16IS7XX_BAUDRATE_MAX then some ERR__BAUDRATE_ERROR
    else none

/-- Reference frequency selected by SC16IS7XX_SetUARTBaudRate
(crystal wins when both crystal and oscillator are nonzero). -/
def SC16IS7XX_compFreq (xtal osc : ℕ) : ℕ := if xtal ≠ 0 then xtal else osc

/-! ## I2C write phases and SC16IS7XX_SoftResetDevice

__SC16IS7XX_WriteData (I2C path, SC16IS7XX.c lines 330-338) performs an
address-phase transfer then a data-phase transfer and post-processes
the address-phase result; the data-phase result is returned unchanged. -/

/-- Result of __SC16IS7XX_WriteData over I2C as a function of the two
transfer results reported by the bus transport. -/
def writeDataI2Cresult (addrPhase dataPhase : eERRORRESULT) : eERRORRESULT :=
  if addrPhase = ERR__I2C_NACK then ERR__NOT_READY
  else if addrPhase = ERR__I2C_NACK_DATA then ERR__I2C_INVALID_ADDRESS
  else if addrPhase ≠ ERR_OK then addrPhase
  else dataPhase

/-- Post-processing applied by SC16IS7XX_SoftResetDevice to the result
of the IOControl software-reset register write (SC16IS7XX.c lines
175-177). -/
def softResetFromWriteResult (e : eERRORRESULT) : eERRORRESULT :=
  if e = ERR__I2C_NACK_DATA then ERR_OK else e

/-- SC16IS7XX_SoftResetDevice over the I2C transport, as a function of
the two bus-transfer results of the single register write it issues. -/
def SC16IS7XX_SoftResetDevice (addrPhase dataPhase : eERRORRESULT) : eERRORRESULT :=
  softResetFromWriteResult (writeDataI2Cresult addrPhase dataPhase)

/-! ## Register addresses (SC16IS7XX.h register list) -/

def RegSC16IS7XX_RHR : ℕ := 0x00
def RegSC16IS7XX_THR : ℕ := 0x00
def RegSC16IS7XX_IER : ℕ := 0x01
def RegSC16IS7XX_IIR : ℕ := 0x02
def RegSC16IS7XX_FCR : ℕ := 0x02
def RegSC16IS7XX_LCR : ℕ := 0x03
def RegSC16IS7XX_MCR : ℕ := 0x04
def RegSC16IS7XX_LSR : ℕ := 0x05
def RegSC16IS7XX_TCR : ℕ := 0x06
def RegSC16IS7XX_TLR : ℕ := 0x07
def RegSC16IS7XX_TXLVL : ℕ := 0x08
def RegSC16IS7XX_RXLVL : ℕ := 0x09
def RegSC16IS7XX_IOControl : ℕ := 0x0E
def RegSC16IS7XX_EFCR : ℕ := 0x0F
def RegSC16IS7XX_DLL : ℕ := 0x00
def RegSC16IS7XX_DLH : ℕ := 0x01
def RegSC16IS7XX_EFR : ℕ := 0x02
def RegSC16IS7XX_XON1 : ℕ := 0x04
def RegSC16IS7XX_XON2 : ℕ := 0x05
def RegSC16IS7XX_XOFF1 : ℕ := 0x06
def RegSC16IS7XX_XOFF2 : ℕ := 0x07

def SC16IS7XX_LCR_VALUE_SET_SPECIAL_REGISTER : ℕ := 0x80
def SC16IS7XX_LCR_VALUE_SET_ENHANCED_FEATURE_REGISTER : ℕ := 0xBF

/-! ## Transport interface

The bus transport (I2C/SPI byte-transfer primitives) is external to the
layer under verification; it is modelled as a state machine with a
multi-byte register read, a multi-byte register write, and an
instrumentation hook.  The mark hook records entries into
SC16IS7XX_SetRegisterAccess (flag true) and
SC16IS7XX_ReturnAccessToGeneralRegister (flag false); it performs no
register traffic and exists only so that the scoped-access pairing
property of the spec can be counted, as the spec itself suggests
("verified by instrumenting the guard"). -/

structure Transport (σ : Type) where
  readBytes : σ → ℕ → ℕ → ℕ → eERRORRESULT × List ℕ × σ
  writeBytes : σ → ℕ → ℕ → List ℕ → eERRORRESULT × σ
  mark : σ → Bool → ℕ → σ

/-- Embedding of __SC16IS7XX_ReadData: size 0 returns ERR_OK without
touching the bus (SC16IS7XX.c line 243), otherwise one bus transaction
reads size bytes from the register address. -/
def __SC16IS7XX_ReadData {σ : Type} (T : Transport σ) (s : σ) (channel address size : ℕ) :
    eERRORRESULT × List ℕ × σ :=
  if size = 0 then (ERR_OK, [], s) else T.readBytes s channel address size

/-- Embedding of __SC16IS7XX_WriteData: size 0 returns ERR_OK without
touching the bus (SC16IS7XX.c line 314), otherwise one bus transaction
writes the bytes to the register address. -/
def __SC16IS7XX_WriteData {σ : Type} (T : Transport σ) (s : σ) (channel address : ℕ)
    (data : List ℕ) : eERRORRESULT × σ :=
  if data.length = 0 then (ERR_OK, s) else T.writeBytes s channel address data

/-- SC16IS7XX_ReadRegister: single-byte read. -/
def SC16IS7XX_ReadRegister {σ : Type} (T : Transport σ) (s : σ) (channel registerAddr : ℕ) :
    eERRORRESULT × ℕ × σ :=
  match __SC16IS7XX_ReadData T s channel registerAddr 1 with
  | (e, vs, s1) => (e, vs.headD 0, s1)

/-- SC16IS7XX_WriteRegister: single-byte write. -/
def SC16IS7XX_WriteRegister {σ : Type} (T : Transport σ) (s : σ) (channel registerAddr registerValue : ℕ) :
    eERRORRESULT × σ :=
  __SC16IS7XX_WriteData T s channel registerAddr [registerValue]

/-- SC16IS7XX_ModifyRegister: read, clear the masked bits, set the new
masked value, write back. -/
def SC16IS7XX_ModifyRegister {σ : Type} (T : Transport σ) (s : σ)
    (channel registerAddr registerValue registerMask : ℕ) : eERRORRESULT × σ :=
  match SC16IS7XX_ReadRegister T s channel registerAddr with
  | (e, regValue, s1) =>
    if e ≠ ERR_OK then (e, s1)
    else SC16IS7XX_WriteRegister T s1 channel registerAddr
      ((regValue &&& (255 ^^^ registerMask)) ||| (registerValue &&& registerMask))

/-- SC16IS7XX_SetRegisterAccess: read and save the LCR, then write the
register-set selector into the LCR.  Emits the instrumentation mark on
entry (call counting for the scoped-access pairing property). -/
def SC16IS7XX_SetRegisterAccess {σ : Type} (T : Transport σ) (s : σ) (channel setAccessTo : ℕ) :
    eERRORRESULT × ℕ × σ :=
  let s0 := T.mark s true channel
  match SC16IS7XX_ReadRegister T s0 channel RegSC16IS7XX_LCR with
  | (e, originalLCR, s1) =>
    if e ≠ ERR_OK then (e, originalLCR, s1)
    else
      match SC16IS7XX_WriteRegister T s1 channel RegSC16IS7XX_LCR setAccessTo with
      | (e2, s2) => (e2, originalLCR, s2)

/-- SC16IS7XX_ReturnAccessToGeneralRegister: clear LCR[7] of the saved
value (SC16IS7XX_LCR_VALUE_SET_GENERAL_REGISTER mask) and write it
back.  Emits the instrumentation mark on entry. -/
def SC16IS7XX_ReturnAccessToGeneralRegister {σ : Type} (T : Transport σ) (s : σ)
    (channel originalLCRregValue : ℕ) : eERRORRESULT × σ :=
  let s0 := T.mark s false channel
  SC16IS7XX_WriteRegister T s0 channel RegSC16IS7XX_LCR (originalLCRregValue &&& 0x7F)

/-- SC16IS7XX_EnableEnhancedFunctions: switch to the enhanced register
set, set EFR[4], restore general access.  Note that the source returns
immediately when the EFR modify fails, without restoring the LCR. -/
def SC16IS7XX_EnableEnhancedFunctions {σ : Type} (T : Transport σ) (s : σ) (channel : ℕ) :
    eERRORRESULT × σ :=
  match SC16IS7XX_SetRegisterAccess T s channel SC16IS7XX_LCR_VALUE_SET_ENHANCED_FEATURE_REGISTER with
  | (e, originalLCR, s1) =>
    if e ≠ ERR_OK then (e, s1)
    else
      match SC16IS7XX_ModifyRegister T s1 channel RegSC16IS7XX_EFR 0x10 0x10 with
      | (e2, s2) =>
        if e2 ≠ ERR_OK then (e2, s2)
        else SC16IS7XX_ReturnAccessToGeneralRegister T s2 channel originalLCR

/-- SC16IS7XX_IsDeviceInSleepMode: read IER (channel 0 in the source,
SC16IS7XX_NO_CHANNEL) and test the sleep-mode bit IER[4]. -/
def SC16IS7XX_IsDeviceInSleepMode {σ : Type} (T : Transport σ) (s : σ) :
    eERRORRESULT × Bool × σ :=
  match SC16IS7XX_ReadRegister T s 0 RegSC16IS7XX_IER with
  | (e, ier, s1) =>
    if e ≠ ERR_OK then (e, false, s1)
    else (ERR_OK, ier &&& 0x10 > 0, s1)

/-! ## Configuration data (SC16IS7XX.h structures, as used by SC16IS7XX.c) -/

inductive eSC16IS7XX_UARTtype where
  | SC16IS7XX_UART_RS232
  | SC16IS7XX_UART_RS485
  | SC16IS7XX_UART_IrDA
  | SC16IS7XX_UART_Modem
deriving DecidableEq

inductive eSC16IS7XX_ControlFlowType where
  | SC16IS7XX_NO_CONTROL_FLOW
  | SC16IS7XX_HARDWARE_CONTROL_FLOW
  | SC16IS7XX_SOFTWARE_CONTROL_FLOW
deriving DecidableEq

inductive eSC16IS7XX_PinControlType where
  | SC16IS7XX_AUTOMATIC_PIN_CONTROL
  | SC16IS7XX_MANUAL_PIN_CONTROL
deriving DecidableEq

inductive eSC16IS7XX_RS485RTSconfig where
  | SC16IS7XX_RS485_AUTO_RTS
  | SC16IS7XX_RS485_HARD_FLOW_CONTROL_RTS
  | SC16IS7XX_RS485_MANUAL_EXTERNAL_RTS
deriving DecidableEq

inductive eSC16IS7XX_AutoRS485 where
  | SC16IS7XX_NO_AUTO_RS485_MODE
  | SC16IS7XX_MULTIDROP_MODE
  | SC16IS7XX_AUTO_ADDRESS_DETECT
deriving DecidableEq

inductive eSC16IS7XX_IrDAconfig where
  | SC16IS7XX_IrDA_SIR_3_16_RATIO
  | SC16IS7XX_IrDA_SIR_1_4_RATIO
deriving DecidableEq

open eSC16IS7XX_UARTtype eSC16IS7XX_ControlFlowType eSC16IS7XX_PinControlType
open eSC16IS7XX_RS485RTSconfig eSC16IS7XX_AutoRS485 eSC16IS7XX_IrDAconfig

/-- Hardware control-flow request (SC16IS7XX_HardControlFlow). -/
structure SC16IS7XX_HardControlFlow where
  HoldAt : ℕ := 0
  ResumeAt : ℕ := 0
  UseSpecialCharOnXoff2 : Bool := false
  CTSpinControl : eSC16IS7XX_PinControlType := SC16IS7XX_MANUAL_PIN_CONTROL
  RTSpinControl : eSC16IS7XX_PinControlType := SC16IS7XX_MANUAL_PIN_CONTROL
  SpecialChar : ℕ := 0
deriving DecidableEq

/-- Software control-flow request (SC16IS7XX_SoftControlFlow; the .c
revision reads the field Xoff2, so that name is kept). Config is the
4-bit eSC16IS7XX_SoftFlowCtrl nibble for EFR[3:0]. -/
structure SC16IS7XX_SoftControlFlow where
  HoldAt : ℕ := 0
  ResumeAt : ℕ := 0
  UseSpecialCharOnXoff2 : Bool := false
  Config : ℕ := 0
  XonAnyChar : Bool := false
  Xon1 : ℕ := 0
  Xon2 : ℕ := 0
  Xoff1 : ℕ := 0
  Xoff2 : ℕ := 0
deriving DecidableEq

/-- Modelled from the spec: the macro
SC16IS7XX_IS_SOFT_CONTROL_FLOW_USES_XOFF2 is referenced by SC16IS7XX.c
(line 1026) but defined nowhere in the repository sources.  Per the
documented eSC16IS7XX_SoftFlowCtrl encoding (EFR[3:0]), the receiver
compares Xoff2 when bit 1 of the nibble is set and the transmitter
sends Xoff2 when bit 3 is set, so the software control flow uses Xoff2
exactly when config AND 0b1010 is nonzero. -/
def SC16IS7XX_IS_SOFT_CONTROL_FLOW_USES_XOFF2 (config : ℕ) : Bool :=
  config &&& 0xA != 0

/-- UART configuration request (SC16IS7XX_UARTconfig).  The C union of
per-UART-type sub-configurations is flattened into prefixed fields; the
UseSpecialChar/SpecialChar fields are the ones the .c revision reads. -/
structure SC16IS7XX_UARTconfig where
  UARTtype : eSC16IS7XX_UARTtype := SC16IS7XX_UART_RS232
  UARTwordLen : ℕ := 0x3
  UARTparity : ℕ := 0
  UARTstopBit : ℕ := 0
  UARTbaudrate : ℕ := 9600
  RS232_ControlFlowType : eSC16IS7XX_ControlFlowType := SC16IS7XX_NO_CONTROL_FLOW
  RS232_HardFlowControl : SC16IS7XX_HardControlFlow := {}
  RS232_SoftFlowControl : SC16IS7XX_SoftControlFlow := {}
  RS485_RTScontrol : eSC16IS7XX_RS485RTSconfig := SC16IS7XX_RS485_MANUAL_EXTERNAL_RTS
  RS485_RTSoutInversion : Bool := false
  RS485_AutoRS485mode : eSC16IS7XX_AutoRS485 := SC16IS7XX_NO_AUTO_RS485_MODE
  RS485_AddressChar : ℕ := 0
  RS485_UseHardwareControlFlow : Bool := false
  RS485_HardFlowControl : SC16IS7XX_HardControlFlow := {}
  IrDA_IrDAmode : eSC16IS7XX_IrDAconfig := SC16IS7XX_IrDA_SIR_3_16_RATIO
  IrDA_UseSoftwareControlFlow : Bool := false
  IrDA_SoftFlowControl : SC16IS7XX_SoftControlFlow := {}
  Modem_UseHardwareControlFlow : Bool := false
  Modem_HardFlowControl : SC16IS7XX_HardControlFlow := {}
  DisableTransmitter : Bool := false
  DisableReceiver : Bool := false
  UseFIFOs : Bool := true
  TxTrigLvl : ℕ := 1
  RxTrigLvl : ℕ := 1
  Interrupts : ℕ := 0
  UseSpecialChar : Bool := false
  SpecialChar : ℕ := 0
deriving DecidableEq

/-! ## Control-flow configurator (__SC16IS7XX_SetControlFlowConfiguration) -/

/-- Trigger-control-level section of __SC16IS7XX_SetControlFlowConfiguration
(SC16IS7XX.c lines 993-1004): when a hardware or software flow is
requested, reject HoldAt ≤ ResumeAt, otherwise write the TCR; a some
result is an early return of the enclosing function. -/
def controlFlowCheckAndWriteTCR {σ : Type} (T : Transport σ) (s : σ) (channel : ℕ)
    (HoldAt ResumeAt : ℕ) : Option eERRORRESULT × σ :=
  if HoldAt ≤ ResumeAt then (some ERR__CONFIGURATION, s)
  else
    match SC16IS7XX_WriteRegister T s channel RegSC16IS7XX_TCR
        ((HoldAt &&& 0xF) ||| ((ResumeAt <<< 4) &&& 0xF0)) with
    | (e, s1) => if e ≠ ERR_OK then (some e, s1) else (none, s1)

/-- Dispatch of the trigger levels: the hardware flow levels win when a
hardware flow is requested, otherwise the software flow levels are
used. -/
def controlFlowWriteTCR {σ : Type} (T : Transport σ) (s : σ) (channel : ℕ)
    (pHardFlow : Option SC16IS7XX_HardControlFlow)
    (pSoftFlow : Option SC16IS7XX_SoftControlFlow) : Option eERRORRESULT × σ :=
  match pHardFlow, pSoftFlow with
  | none, none => (none, s)
  | some hf, none => controlFlowCheckAndWriteTCR T s channel hf.HoldAt hf.ResumeAt
  | some hf, some _ => controlFlowCheckAndWriteTCR T s channel hf.HoldAt hf.ResumeAt
  | none, some sf => controlFlowCheckAndWriteTCR T s channel sf.HoldAt sf.ResumeAt

/-- Special-character and EFR writes closing the configuration section
(SC16IS7XX.c lines 1039-1046). -/
def controlFlowSpecialAndEFR {σ : Type} (T : Transport σ) (s : σ) (channel : ℕ)
    (pSpecialChar : Option ℕ) (RegEFR : ℕ) (ErrorReturn : eERRORRESULT) : eERRORRESULT × σ :=
  let (RegEFRf, ErrorReturnf, sf1) :=
    match pSpecialChar with
    | some c =>
      match SC16IS7XX_WriteRegister T s channel RegSC16IS7XX_XOFF2 c with
      | (e, s1) => (RegEFR ||| 0x20, if e ≠ ERR_OK then e else ErrorReturn, s1)
    | none => (RegEFR, ErrorReturn, s)
  match SC16IS7XX_WriteRegister T sf1 channel RegSC16IS7XX_EFR RegEFRf with
  | (e, s2) => (if e ≠ ERR_OK then e else ErrorReturnf, s2)

/-- Configuration section of __SC16IS7XX_SetControlFlowConfiguration
(SC16IS7XX.c lines 1012-1047, the block guarded by ErrorReturn == ERR_OK):
builds the EFR value, performs the Xon/Xoff and EFR writes, and
accumulates the last failure into the returned error (ERR_OK if none). -/
def controlFlowConfigBody {σ : Type} (T : Transport σ) (s : σ) (channel : ℕ)
    (pHardFlow : Option SC16IS7XX_HardControlFlow)
    (pSoftFlow : Option SC16IS7XX_SoftControlFlow)
    (pSpecialChar : Option ℕ) (useAddressChar : Bool) (RegEFR0 : ℕ) : eERRORRESULT × σ :=
  match pHardFlow, pSoftFlow with
  | some hf, none =>
    let r := 0x10
    let r := if hf.RTSpinControl = SC16IS7XX_AUTOMATIC_PIN_CONTROL then r ||| 0x40 else r
    let r := if hf.CTSpinControl = SC16IS7XX_AUTOMATIC_PIN_CONTROL then r ||| 0x80 else r
    let er := if pSpecialChar.isSome ∧ useAddressChar then ERR__CONFIGURATION else ERR_OK
    let r := if useAddressChar then r ||| 0x20 else r
    controlFlowSpecialAndEFR T s channel pSpecialChar r er
  | none, some sf =>
    let er := if pSpecialChar.isSome ∧ SC16IS7XX_IS_SOFT_CONTROL_FLOW_USES_XOFF2 sf.Config
              then ERR__CONFIGURATION else ERR_OK
    let RegEFR2 := (sf.Config &&& 0xF) ||| 0x10
    match SC16IS7XX_WriteRegister T s channel RegSC16IS7XX_XON1 sf.Xon1 with
    | (e1, s1) =>
      let er := if e1 ≠ ERR_OK then e1 else er
      match SC16IS7XX_WriteRegister T s1 channel RegSC16IS7XX_XON2 sf.Xon2 with
      | (e2, s2) =>
        let er := if e2 ≠ ERR_OK then e2 else er
        match SC16IS7XX_WriteRegister T s2 channel RegSC16IS7XX_XOFF1 sf.Xoff1 with
        | (e3, s3) =>
          let er := if e3 ≠ ERR_OK then e3 else er
          let (e4, s4) :=
            if pSpecialChar.isNone
            then SC16IS7XX_WriteRegister T s3 channel RegSC16IS7XX_XOFF2 sf.Xoff2
            else (e3, s3)
          let er := if e4 ≠ ERR_OK then e4 else er
          controlFlowSpecialAndEFR T s4 channel pSpecialChar RegEFR2 er
  | none, none => controlFlowSpecialAndEFR T s channel pSpecialChar RegEFR0 ERR_OK
  | some _, some _ => controlFlowSpecialAndEFR T s channel pSpecialChar RegEFR0 ERR_OK

/-- Embedding of __SC16IS7XX_SetControlFlowConfiguration (SC16IS7XX.c
lines 976-1058): mutual-exclusion guard, TCR section, enhanced-register
scope (always closed by ReturnAccessToGeneralRegister once entered),
and the final Xon-Any MCR modify. -/
def __SC16IS7XX_SetControlFlowConfiguration {σ : Type} (T : Transport σ) (s : σ) (channel : ℕ)
    (pHardFlow : Option SC16IS7XX_HardControlFlow)
    (pSoftFlow : Option SC16IS7XX_SoftControlFlow)
    (pSpecialChar : Option ℕ) (useAddressChar : Bool) : eERRORRESULT × σ :=
  if pHardFlow.isSome ∧ pSoftFlow.isSome then (ERR__CONFIGURATION, s)
  else
    let RegEFR0 : ℕ := 0x10 ||| (if useAddressChar then 0x20 else 0x00)
    match controlFlowWriteTCR T s channel pHardFlow pSoftFlow with
    | (some err, s1) => (err, s1)
    | (none, s1) =>
      match SC16IS7XX_SetRegisterAccess T s1 channel SC16IS7XX_LCR_VALUE_SET_ENHANCED_FEATURE_REGISTER with
      | (e, originalLCR, s2) =>
        let ErrorReturn0 := if e ≠ ERR_OK then e else ERR_OK
        let (ErrorReturn1, s3) :=
          if ErrorReturn0 = ERR_OK
          then controlFlowConfigBody T s2 channel pHardFlow pSoftFlow pSpecialChar useAddressChar RegEFR0
          else (ErrorReturn0, s2)
        match SC16IS7XX_ReturnAccessToGeneralRegister T s3 channel originalLCR with
        | (e2, s4) =>
          if ErrorReturn1 ≠ ERR_OK then (ErrorReturn1, s4)
          else if e2 ≠ ERR_OK then (e2, s4)
          else
            let RegValue : ℕ := match pSoftFlow with
              | some sf => if sf.XonAnyChar then 0x20 else 0x00
              | none => 0x00
            SC16IS7XX_ModifyRegister T s4 channel RegSC16IS7XX_MCR RegValue 0x20

/-! ## FIFO, Tx/Rx and interrupt configuration -/

/-- SC16IS7XX_TxRxDisable: modify EFCR[2] (Tx disable) and EFCR[1]
(Rx disable). -/
def SC16IS7XX_TxRxDisable {σ : Type} (T : Transport σ) (s : σ) (channel : ℕ)
    (disableTx disableRx : Bool) : eERRORRESULT × σ :=
  let RegEFCR := (if disableTx then 0x4 else 0x0) ||| (if disableRx then 0x2 else 0x0)
  SC16IS7XX_ModifyRegister T s channel RegSC16IS7XX_EFCR RegEFCR 0x06

/-- SC16IS7XX_ResetFIFO: read the FIFO-enable mirror out of the IIR,
then write FCR with the reset bits requested. -/
def SC16IS7XX_ResetFIFO {σ : Type} (T : Transport σ) (s : σ) (channel : ℕ)
    (resetTxFIFO resetRxFIFO : Bool) : eERRORRESULT × σ :=
  match SC16IS7XX_ReadRegister T s channel RegSC16IS7XX_IIR with
  | (e, iir, s1) =>
    if e ≠ ERR_OK then (e, s1)
    else
      let RegFCR := if iir &&& 0xC0 > 0 then 0x1 else 0x0
      let RegFCR := if resetRxFIFO then RegFCR ||| 0x2 else RegFCR
      let RegFCR := if resetTxFIFO then RegFCR ||| 0x4 else RegFCR
      SC16IS7XX_WriteRegister T s1 channel RegSC16IS7XX_FCR RegFCR

/-- Embedding of __SC16IS7XX_ConfigureFIFOs: FCR enable write then TLR
trigger-level write. -/
def __SC16IS7XX_ConfigureFIFOs {σ : Type} (T : Transport σ) (s : σ) (channel : ℕ)
    (useFIFOs : Bool) (txTrigLvl rxTrigLvl : ℕ) : eERRORRESULT × σ :=
  match SC16IS7XX_WriteRegister T s channel RegSC16IS7XX_FCR (if useFIFOs then 0x1 else 0x0) with
  | (e, s1) =>
    if e ≠ ERR_OK then (e, s1)
    else SC16IS7XX_WriteRegister T s1 channel RegSC16IS7XX_TLR
      ((txTrigLvl &&& 0xF) ||| ((rxTrigLvl <<< 4) &&& 0xF0))

/-- SC16IS7XX_ConfigureInterrupt: write the masked interrupt flags into
the IER. -/
def SC16IS7XX_ConfigureInterrupt {σ : Type} (T : Transport σ) (s : σ) (channel : ℕ)
    (interruptsFlags : ℕ) : eERRORRESULT × σ :=
  SC16IS7XX_WriteRegister T s channel RegSC16IS7XX_IER (interruptsFlags &&& 0xEF)

/-! ## UART type/format configuration (__SC16IS7XX_SetUARTConfiguration) -/

/-- RS-485 auto-address-detect block of __SC16IS7XX_SetUARTConfiguration
(SC16IS7XX.c lines 820-833).  The EFR modify result is discarded by the
source (line 826 lacks the Error assignment, and the stale Error value
checked on line 827 is ERR_OK at that point), so no abort can come from
it; the embedding mirrors that. -/
def uartConfigRS485AddressBlock {σ : Type} (T : Transport σ) (s : σ) (channel addressChar : ℕ) :
    Option eERRORRESULT × σ :=
  match SC16IS7XX_SetRegisterAccess T s channel SC16IS7XX_LCR_VALUE_SET_ENHANCED_FEATURE_REGISTER with
  | (e, originalLCR, s1) =>
    if e ≠ ERR_OK then (some e, s1)
    else
      match SC16IS7XX_ModifyRegister T s1 channel RegSC16IS7XX_EFR 0x20 0x20 with
      | (_, s2) =>
        match SC16IS7XX_WriteRegister T s2 channel RegSC16IS7XX_XOFF2 addressChar with
        | (e2, s3) =>
          let ErrorReturn := if e2 ≠ ERR_OK then e2 else ERR_OK
          match SC16IS7XX_ReturnAccessToGeneralRegister T s3 channel originalLCR with
          | (e3, s4) =>
            if ErrorReturn ≠ ERR_OK then (some ErrorReturn, s4)
            else if e3 ≠ ERR_OK then (some e3, s4)
            else (none, s4)

/-- Per-UART-type register preparation of __SC16IS7XX_SetUARTConfiguration
(SC16IS7XX.c lines 788-861): computes (RegMCR, RegEFCR, RegIOC) and
performs the RS-485 auto-address writes; a some error is an early
return. -/
def uartConfigTypeSwitch {σ : Type} (T : Transport σ) (s : σ) (channel devicePN : ℕ)
    (conf : SC16IS7XX_UARTconfig) : (Option eERRORRESULT) × ℕ × ℕ × ℕ × σ :=
  let RegEFCRdefault : ℕ := 0x00
  let RegIOCdefault : ℕ := 0x00
  match conf.UARTtype with
  | SC16IS7XX_UART_RS232 => (none, 0x00, RegEFCRdefault, RegIOCdefault, s)
  | SC16IS7XX_UART_RS485 =>
    let rtsCheck : Option eERRORRESULT :=
      match conf.RS485_RTScontrol with
      | SC16IS7XX_RS485_AUTO_RTS =>
        if conf.RS485_UseHardwareControlFlow then some ERR__CONFIGURATION else none
      | SC16IS7XX_RS485_HARD_FLOW_CONTROL_RTS =>
        if conf.RS485_UseHardwareControlFlow = false then some ERR__CONFIGURATION else none
      | SC16IS7XX_RS485_MANUAL_EXTERNAL_RTS =>
        if conf.RS485_UseHardwareControlFlow then some ERR__CONFIGURATION else none
    match rtsCheck with
    | some err => (some err, 0x00, RegEFCRdefault, RegIOCdefault, s)
    | none =>
      let RegEFCR := if conf.RS485_RTScontrol = SC16IS7XX_RS485_AUTO_RTS
                     then RegEFCRdefault ||| 0x10 else RegEFCRdefault
      let RegEFCR := if conf.RS485_RTSoutInversion then RegEFCR ||| 0x20 else RegEFCR
      match conf.RS485_AutoRS485mode with
      | SC16IS7XX_NO_AUTO_RS485_MODE => (none, 0x00, RegEFCR, RegIOCdefault, s)
      | SC16IS7XX_MULTIDROP_MODE => (none, 0x00, RegEFCR ||| 0x1, RegIOCdefault, s)
      | SC16IS7XX_AUTO_ADDRESS_DETECT =>
        let RegEFCR := RegEFCR ||| 0x1
        match uartConfigRS485AddressBlock T s channel conf.RS485_AddressChar with
        | (some err, s1) => (some err, 0x00, RegEFCR, RegIOCdefault, s1)
        | (none, s1) => (none, 0x00, RegEFCR, RegIOCdefault, s1)
  | SC16IS7XX_UART_IrDA =>
    let RegEFCR := 0x00
    if conf.IrDA_IrDAmode = SC16IS7XX_IrDA_SIR_1_4_RATIO then
      if SC16IS7XX_Limits.IrDA_1_4_RATIO (SC16IS7XX_limitsOf devicePN)
      then (none, 0x40, 0x80, RegIOCdefault, s)
      else (some ERR__NOT_SUPPORTED, 0x40, RegEFCR, RegIOCdefault, s)
    else (none, 0x40, RegEFCR, RegIOCdefault, s)
  | SC16IS7XX_UART_Modem =>
    let RegIOC := if channel = 0 then 0x02 else 0x04
    (none, 0x00, RegEFCRdefault, RegIOC, s)

/-- Embedding of __SC16IS7XX_SetUARTConfiguration (SC16IS7XX.c lines
761-878).  The three ModifyRegister results on lines 864-868 are
discarded by the source (the Error assignments are missing and the
stale Error value is ERR_OK on these paths), so their failures cannot
abort; the embedding mirrors that by ignoring them.  Ends with the LCR
line-format write (word length, stop bits, parity). -/
def __SC16IS7XX_SetUARTConfiguration {σ : Type} (T : Transport σ) (s : σ)
    (channel devicePN : ℕ) (conf : SC16IS7XX_UARTconfig) : eERRORRESULT × σ :=
  if channel ≥ 2 then (ERR__UNKNOWN_ELEMENT, s)
  else
    let RegIOCmask : ℕ := if channel = 0 then 0x02 else 0x04
    match uartConfigTypeSwitch T s channel devicePN conf with
    | (some err, _, _, _, s1) => (err, s1)
    | (none, RegMCR, RegEFCR, RegIOC, s1) =>
      match SC16IS7XX_ModifyRegister T s1 channel RegSC16IS7XX_MCR RegMCR 0x40 with
      | (_, s2) =>
        match SC16IS7XX_ModifyRegister T s2 channel RegSC16IS7XX_EFCR RegEFCR 0xB1 with
        | (_, s3) =>
          match SC16IS7XX_ModifyRegister T s3 channel RegSC16IS7XX_IOControl RegIOC RegIOCmask with
          | (_, s4) =>
            let RegLCR := (conf.UARTwordLen &&& 0x3)
                      ||| (if conf.UARTstopBit ≠ 0 then 0x4 else 0x0)
                      ||| ((conf.UARTparity <<< 3) &&& 0x38)
            SC16IS7XX_WriteRegister T s4 channel RegSC16IS7XX_LCR RegLCR

/-! ## Baud-rate programming (SC16IS7XX_SetUARTBaudRate, transport part) -/

/-- IrDA-specific baud-rate checks of SC16IS7XX_SetUARTBaudRate
(SC16IS7XX.c lines 912-923). -/
def SC16IS7XX_SetUARTBaudRate_irdaCheck (devicePN : ℕ) (conf : SC16IS7XX_UARTconfig) :
    Option eERRORRESULT :=
  if conf.UARTtype = SC16IS7XX_UART_IrDA then
    if conf.IrDA_IrDAmode = SC16IS7XX_IrDA_SIR_1_4_RATIO then
      if SC16IS7XX_Limits.IrDA_1_4_RATIO (SC16IS7XX_limitsOf devicePN) then
        if conf.UARTbaudrate > SC16IS76X_IrDA_SPEED_MAX then some ERR__BAUDRATE_ERROR else none
      else some ERR__NOT_SUPPORTED
    else if conf.UARTbaudrate > SC16IS7XX_IrDA_SPEED_MAX then some ERR__BAUDRATE_ERROR else none
  else none

/-- Embedding of SC16IS7XX_SetUARTBaudRate (SC16IS7XX.c lines 885-968):
sleep-mode guard, limit tests, divisor/prescaler selection (pure solver
above), MCR clock-divide modify, switch to the special register set,
DLL/DLH writes, return to general registers.  The Option Int output
models the UARTbaudrateError out-parameter; the source stores it before
the register operations, hence it is present on the register-error
paths too. -/
def SC16IS7XX_SetUARTBaudRate {σ : Type} (T : Transport σ) (s : σ) (channel devicePN xtal osc : ℕ)
    (conf : SC16IS7XX_UARTconfig) : eERRORRESULT × Option ℤ × σ :=
  match SC16IS7XX_IsDeviceInSleepMode T s with
  | (e, sleep, s1) =>
    if e ≠ ERR_OK then (e, none, s1)
    else if sleep then (ERR__NOT_IN_SLEEP_MODE, none, s1)
    else
      match SC16IS7XX_SetUARTBaudRate_limitsCheck xtal osc conf.UARTbaudrate with
      | some err => (err, none, s1)
      | none =>
        match SC16IS7XX_SetUARTBaudRate_irdaCheck devicePN conf with
        | some err => (err, none, s1)
        | none =>
          let CompFreq := SC16IS7XX_compFreq xtal osc
          let RegValue := baudChosenRegValue CompFreq conf.UARTbaudrate
          let DivPresToSet := baudChosenDivisor CompFreq conf.UARTbaudrate
          let errOut := baudChosenError CompFreq conf.UARTbaudrate
          match SC16IS7XX_ModifyRegister T s1 channel RegSC16IS7XX_MCR RegValue 0x80 with
          | (e1, s2) =>
            if e1 ≠ ERR_OK then (e1, some errOut, s2)
            else
              match SC16IS7XX_SetRegisterAccess T s2 channel SC16IS7XX_LCR_VALUE_SET_SPECIAL_REGISTER with
              | (e2, originalLCR, s3) =>
                if e2 ≠ ERR_OK then (e2, some errOut, s3)
                else
                  match SC16IS7XX_WriteRegister T s3 channel RegSC16IS7XX_DLL (DivPresToSet &&& 0xFF) with
                  | (e3, s4) =>
                    if e3 ≠ ERR_OK then (e3, some errOut, s4)
                    else
                      match SC16IS7XX_WriteRegister T s4 channel RegSC16IS7XX_DLH (DivPresToSet >>> 8) with
                      | (e4, s5) =>
                        if e4 ≠ ERR_OK then (e4, some errOut, s5)
                        else
                          match SC16IS7XX_ReturnAccessToGeneralRegister T s5 channel originalLCR with
                          | (e5, s6) => (e5, some errOut, s6)

/-! ## Ring buffers and the UART handle -/

/-- Ring buffer state (SC16IS7XX_Buffer).  The field data models the
backing byte array (length BufferSize in well-formed states); reads
past the end of the array — which the C Tx drain can perform, see
__SC16IS7XX_SetControlFlowConfiguration's sibling SC16IS7XX_TransmitData
— are modelled as reading 0. -/
structure SC16IS7XX_Buffer where
  data : List ℕ
  BufferSize : ℕ
  PosIn : ℕ
  PosOut : ℕ
  IsFull : Bool
deriving DecidableEq

/-- Write vals into l starting at offset off (memcpy into an array),
preserving the list length; positions past the end are dropped. -/
def listWriteAt (l : List ℕ) (off : ℕ) (vals : List ℕ) : List ℕ :=
  (List.range l.length).map
    (fun i => if off ≤ i ∧ i < off + vals.length then vals.getD (i - off) 0 else l.getD i 0)

/-- Read n bytes from l starting at offset off (memcpy out of an
array); positions past the end read 0. -/
def listReadSeg (l : List ℕ) (off n : ℕ) : List ℕ :=
  (List.range n).map (fun i => l.getD (off + i) 0)

/-- UART handle (SC16IS7XX_UART): device transport state, channel,
driver configuration bits (0x01 = SAFE_TX, 0x02 = SAFE_RX, 0x80 =
TEST_LOOPBACK_AT_INIT), and the optional Tx/Rx ring buffers (a none
buffer models pData == NULL). -/
structure SC16IS7XX_UART (σ : Type) where
  dev : σ
  Channel : ℕ
  DriverConfig : ℕ
  TxBuffer : Option SC16IS7XX_Buffer
  RxBuffer : Option SC16IS7XX_Buffer

def SC16IS7XX_DRIVER_SAFE_TX : ℕ := 0x01
def SC16IS7XX_DRIVER_SAFE_RX : ℕ := 0x02
def SC16IS7XX_TEST_LOOPBACK_AT_INIT : ℕ := 0x80

/-- SC16IS7XX_GetAvailableSpaceTxFIFO: read the TXLVL register. -/
def SC16IS7XX_GetAvailableSpaceTxFIFO {σ : Type} (T : Transport σ) (u : SC16IS7XX_UART σ) :
    eERRORRESULT × ℕ × SC16IS7XX_UART σ :=
  match SC16IS7XX_ReadRegister T u.dev u.Channel RegSC16IS7XX_TXLVL with
  | (e, v, d) => (e, v, { u with dev := d })

/-- SC16IS7XX_GetDataCountRxFIFO: read the RXLVL register. -/
def SC16IS7XX_GetDataCountRxFIFO {σ : Type} (T : Transport σ) (u : SC16IS7XX_UART σ) :
    eERRORRESULT × ℕ × SC16IS7XX_UART σ :=
  match SC16IS7XX_ReadRegister T u.dev u.Channel RegSC16IS7XX_RXLVL with
  | (e, v, d) => (e, v, { u with dev := d })

/-! ## Transmit engine (SC16IS7XX_TransmitData and helpers) -/

/-- Safe-transmit loop of SC16IS7XX_TransmitData (lines 1295-1302):
write one byte at a time into the THR, counting each accepted byte,
aborting on the first write error. -/
def transmitSafeLoop {σ : Type} (T : Transport σ) (channel : ℕ) :
    σ → List ℕ → ℕ → eERRORRESULT × ℕ × σ
  | s, [], sent => (ERR_OK, sent, s)
  | s, b :: rest, sent =>
    match SC16IS7XX_WriteRegister T s channel RegSC16IS7XX_THR b with
    | (e, s1) =>
      if e ≠ ERR_OK then (e, sent, s1)
      else transmitSafeLoop T channel s1 rest (sent + 1)

/-- Embedding of SC16IS7XX_TransmitData (SC16IS7XX.c lines 1253-1338).
Returns (error, actuallySent, updated UART).  In burst mode with an
attached non-full ring buffer the data is first copied into the buffer
(bounded by the contiguous space up to the wrap), then a chunk of the
buffer is sent to the FIFO in one bus write; note the source computes
that chunk bound as BufferSize - PosIn when PosOut ≥ PosIn (line 1317)
and reads the chunk starting at PosOut, which can run past the end of
the array (modelled by listReadSeg returning 0 there). -/
def SC16IS7XX_TransmitData {σ : Type} (T : Transport σ) (u : SC16IS7XX_UART σ)
    (data : List ℕ) : eERRORRESULT × ℕ × SC16IS7XX_UART σ :=
  let IsSafeTX := u.DriverConfig &&& SC16IS7XX_DRIVER_SAFE_TX > 0
  let (actuallySent0, u0) :=
    match u.TxBuffer with
    | some buf =>
      if IsSafeTX = false ∧ buf.IsFull = false then
        let AvailableBufSize :=
          if buf.PosIn ≥ buf.PosOut then buf.BufferSize - buf.PosIn else buf.PosOut - buf.PosIn
        let n := min data.length AvailableBufSize
        if n > 0 then
          let bd := listWriteAt buf.data buf.PosIn (data.take n)
          let pin := buf.PosIn + n
          let pin := if pin ≥ buf.BufferSize then pin - buf.BufferSize else pin
          (n, { u with TxBuffer := some ⟨bd, buf.BufferSize, pin, buf.PosOut, pin = buf.PosOut⟩ })
        else (n, u)
      else (0, u)
    | none => (0, u)
  match SC16IS7XX_GetAvailableSpaceTxFIFO T u0 with
  | (e, AvailableSpace, u1) =>
    if e ≠ ERR_OK then (e, actuallySent0, u1)
    else if IsSafeTX then
      let CountToSend := min data.length AvailableSpace
      match transmitSafeLoop T u1.Channel u1.dev (data.take CountToSend) actuallySent0 with
      | (e2, sent, d2) => (e2, sent, { u1 with dev := d2 })
    else
      match u1.TxBuffer with
      | some buf =>
        let pOff := buf.PosOut
        let (DataSizeToSend, buf1) :=
          if buf.PosOut ≠ buf.PosIn ∨ buf.IsFull then
            let AvailableBufSize :=
              if buf.PosOut ≥ buf.PosIn then buf.BufferSize - buf.PosIn else buf.PosIn - buf.PosOut
            let dsend := min AvailableBufSize AvailableSpace
            if dsend > 0 then
              let pout := buf.PosOut + dsend
              let pout := if pout ≥ buf.BufferSize then pout - buf.BufferSize else pout
              (dsend, (⟨buf.data, buf.BufferSize, buf.PosIn, pout, false⟩ : SC16IS7XX_Buffer))
            else (dsend, buf)
          else (0, buf)
        match __SC16IS7XX_WriteData T u1.dev u1.Channel RegSC16IS7XX_THR
            (listReadSeg buf1.data pOff DataSizeToSend) with
        | (e2, d2) => (e2, actuallySent0, { u1 with dev := d2, TxBuffer := some buf1 })
      | none =>
        let n := min data.length AvailableSpace
        match __SC16IS7XX_WriteData T u1.dev u1.Channel RegSC16IS7XX_THR (data.take n) with
        | (e2, d2) => (e2, n, { u1 with dev := d2 })

/-- SC16IS7XX_TransmitChar: retry SC16IS7XX_TransmitData with one byte
until it is accepted (fuel bounds the unbounded C loop). -/
def SC16IS7XX_TransmitChar {σ : Type} (T : Transport σ) :
    ℕ → SC16IS7XX_UART σ → ℕ → eERRORRESULT × SC16IS7XX_UART σ
  | 0, u, _ => (ERR__OUT_OF_FUEL, u)
  | fuel+1, u, b =>
    match SC16IS7XX_TransmitData T u [b] with
    | (e, sent, u1) =>
      if e ≠ ERR_OK then (e, u1)
      else if sent = 0 then SC16IS7XX_TransmitChar T fuel u1 b
      else (ERR_OK, u1)

/-! ## Receive engine (SC16IS7XX_ReceiveData and helpers) -/

/-- Embedding of __SC16IS7XX_RxBufferToDataBuff (SC16IS7XX.c lines
1427-1445): drain one contiguous chunk (up to the wrap) of the ring
buffer.  Takes the caller's remaining capacity and current
actuallyReceived value, returns (buffer, copied bytes, remaining
capacity, actuallyReceived); when the buffer holds data,
actuallyReceived is assigned the chunk size, otherwise it is left
untouched, exactly as in the source. -/
def __SC16IS7XX_RxBufferToDataBuff (buf : SC16IS7XX_Buffer) (size ar : ℕ) :
    SC16IS7XX_Buffer × List ℕ × ℕ × ℕ :=
  if buf.PosOut ≠ buf.PosIn ∨ buf.IsFull then
    let AvailableBufSize :=
      if buf.PosOut ≥ buf.PosIn then buf.BufferSize - buf.PosOut else buf.PosIn - buf.PosOut
    let ar1 := min size AvailableBufSize
    if ar1 > 0 then
      let copied := listReadSeg buf.data buf.PosOut ar1
      let pout := buf.PosOut + ar1
      let pout := if pout ≥ buf.BufferSize then pout - buf.BufferSize else pout
      ((⟨buf.data, buf.BufferSize, buf.PosIn, pout, false⟩ : SC16IS7XX_Buffer), copied, size - ar1, ar1)
    else (buf, [], size, ar1)
  else (buf, [], size, ar)

/-- Safe-receive loop of SC16IS7XX_ReceiveData (lines 1482-1494): per
byte, read the LSR, latch the receive-error bits, read the RHR, count
the byte; a nonzero error aborts the batch with ERR__RECEIVE_ERROR
after counting the byte, as the source does. -/
def receiveSafeLoop {σ : Type} (T : Transport σ) (channel : ℕ) :
    σ → ℕ → List ℕ → ℕ → ℕ → ℕ → eERRORRESULT × List ℕ × ℕ × ℕ × σ
  | s, 0, outBuf, _, ar, lastErr => (ERR_OK, outBuf, ar, lastErr, s)
  | s, n+1, outBuf, idx, ar, lastErr =>
    match SC16IS7XX_ReadRegister T s channel RegSC16IS7XX_LSR with
    | (e, lsr, s1) =>
      if e ≠ ERR_OK then (e, outBuf, ar, lastErr, s1)
      else
        let lastErr1 := lsr &&& 0x1E
        match SC16IS7XX_ReadRegister T s1 channel RegSC16IS7XX_RHR with
        | (e2, b, s2) =>
          if e2 ≠ ERR_OK then (e2, outBuf, ar, lastErr1, s2)
          else
            let outBuf1 := listWriteAt outBuf idx [b]
            let ar1 := ar + 1
            if lastErr1 ≠ 0 then (ERR__RECEIVE_ERROR, outBuf1, ar1, lastErr1, s2)
            else receiveSafeLoop T channel s2 n outBuf1 (idx + 1) ar1 lastErr1

/-- Embedding of SC16IS7XX_ReceiveData (SC16IS7XX.c lines 1453-1540).
Returns (error, caller buffer contents, actuallyReceived, lastDataError,
updated UART); the caller buffer starts zeroed with length size.  Mirrors
the source exactly: in burst mode with an attached Rx buffer the ring is
pre-drained into the caller buffer at offset 0, then actuallyReceived
is reset to 0 (line 1474), the FIFO is read into the ring, and the ring
is drained again into the caller buffer, again at offset 0 since the
source never advances the data pointer after the pre-drain. -/
def SC16IS7XX_ReceiveData {σ : Type} (T : Transport σ) (u : SC16IS7XX_UART σ)
    (size lastErrIn : ℕ) : eERRORRESULT × List ℕ × ℕ × ℕ × SC16IS7XX_UART σ :=
  let IsSafeRX := u.DriverConfig &&& SC16IS7XX_DRIVER_SAFE_RX > 0
  let outBuf0 : List ℕ := List.replicate size 0
  let (u1, outBuf1, size1) :=
    match u.RxBuffer with
    | some buf =>
      if IsSafeRX = false then
        match __SC16IS7XX_RxBufferToDataBuff buf size 0 with
        | (buf1, copied, size1, _) =>
          ({ u with RxBuffer := some buf1 }, listWriteAt outBuf0 0 copied, size1)
      else (u, outBuf0, size)
    | none => (u, outBuf0, size)
  match SC16IS7XX_GetDataCountRxFIFO T u1 with
  | (e, AvailableData, u2) =>
    if e ≠ ERR_OK then (e, outBuf1, 0, lastErrIn, u2)
    else if IsSafeRX then
      let CountToGet := min size1 AvailableData
      match receiveSafeLoop T u2.Channel u2.dev CountToGet outBuf1 0 0 lastErrIn with
      | (e2, ob, ar, le, d) => (e2, ob, ar, le, { u2 with dev := d })
    else
      match u2.RxBuffer with
      | some buf =>
        let pOff := buf.PosIn
        let (DataSizeToGet, buf1) :=
          if buf.IsFull = false then
            let AvailableBufSize :=
              if buf.PosIn ≥ buf.PosOut then buf.BufferSize - buf.PosIn else buf.PosOut - buf.PosIn
            let dget := min AvailableBufSize AvailableData
            if dget > 0 then
              let pin := buf.PosIn + dget
              let pin := if pin ≥ buf.BufferSize then pin - buf.BufferSize else pin
              (dget, (⟨buf.data, buf.BufferSize, pin, buf.PosOut, buf.PosOut = pin⟩ : SC16IS7XX_Buffer))
            else (dget, buf)
          else (0, buf)
        match __SC16IS7XX_ReadData T u2.dev u2.Channel RegSC16IS7XX_RHR DataSizeToGet with
        | (e2, got, d2) =>
          let buf2 := { buf1 with data := listWriteAt buf1.data pOff got }
          if e2 = ERR_OK then
            match __SC16IS7XX_RxBufferToDataBuff buf2 size1 0 with
            | (buf3, copied, _, ar2) =>
              (ERR_OK, listWriteAt outBuf1 0 copied, ar2, lastErrIn,
               { u2 with dev := d2, RxBuffer := some buf3 })
          else (e2, outBuf1, 0, lastErrIn, { u2 with dev := d2, RxBuffer := some buf2 })
      | none =>
        let n := min size1 AvailableData
        match __SC16IS7XX_ReadData T u2.dev u2.Channel RegSC16IS7XX_RHR n with
        | (e2, got, d2) => (e2, listWriteAt outBuf1 0 got, n, lastErrIn, { u2 with dev := d2 })

/-- SC16IS7XX_ReceiveChar: retry SC16IS7XX_ReceiveData for one byte
until one arrives (fuel bounds the unbounded C loop); returns the byte
and the latched receive-error bits. -/
def SC16IS7XX_ReceiveChar {σ : Type} (T : Transport σ) :
    ℕ → SC16IS7XX_UART σ → ℕ → eERRORRESULT × ℕ × ℕ × SC16IS7XX_UART σ
  | 0, u, lastErr => (ERR__OUT_OF_FUEL, 0, lastErr, u)
  | fuel+1, u, lastErr =>
    match SC16IS7XX_ReceiveData T u 1 lastErr with
    | (e, ob, ar, le, u1) =>
      if e ≠ ERR_OK then (e, ob.headD 0, le, u1)
      else if ar = 0 then SC16IS7XX_ReceiveChar T fuel u1 le
      else (ERR_OK, ob.headD 0, le, u1)

/-! ## Loopback self-test (SC16IS7XX_UARTCommTest) -/

/-- Embedding of SC16IS7XX_UARTCommTest (SC16IS7XX.c lines 711-753):
enable internal loopback in the MCR, reset the FIFOs, transmit and
receive back 0x55 and 0xAA (both masked to 5 bits), failing with
ERR__PERIPHERAL_NOT_VALID on a value or receive-error mismatch, and
write the MCR back to normal operating mode at the end of the success
path.  Every error path returns immediately, leaving the MCR as it is.
The C CharError variable is uninitialized; it is modelled as 0 (no
error), which matches its only observable use, since the safe receive
path always overwrites it before it is read. -/
def SC16IS7XX_UARTCommTest {σ : Type} (T : Transport σ) (fuel : ℕ) (u : SC16IS7XX_UART σ) :
    eERRORRESULT × SC16IS7XX_UART σ :=
  match SC16IS7XX_ReadRegister T u.dev u.Channel RegSC16IS7XX_MCR with
  | (e, mcr0, d1) =>
    let u1 := { u with dev := d1 }
    if e ≠ ERR_OK then (e, u1)
    else
      let RegMCR := mcr0 ||| 0x10
      match SC16IS7XX_WriteRegister T u1.dev u1.Channel RegSC16IS7XX_MCR RegMCR with
      | (e2, d2) =>
        let u2 := { u1 with dev := d2 }
        if e2 ≠ ERR_OK then (e2, u2)
        else
          match SC16IS7XX_ResetFIFO T u2.dev u2.Channel true true with
          | (e3, d3) =>
            let u3 := { u2 with dev := d3 }
            if e3 ≠ ERR_OK then (e3, u3)
            else
              match SC16IS7XX_TransmitChar T fuel u3 (0x55 &&& 0x1F) with
              | (e4, u4) =>
                if e4 ≠ ERR_OK then (e4, u4)
                else
                  match SC16IS7XX_ReceiveChar T fuel u4 0 with
                  | (e5, v1, che1, u5) =>
                    if e5 ≠ ERR_OK then (e5, u5)
                    else if che1 ≠ 0 then (ERR__PERIPHERAL_NOT_VALID, u5)
                    else if v1 ≠ (0x55 &&& 0x1F) then (ERR__PERIPHERAL_NOT_VALID, u5)
                    else
                      match SC16IS7XX_TransmitChar T fuel u5 (0xAA &&& 0x1F) with
                      | (e6, u6) =>
                        if e6 ≠ ERR_OK then (e6, u6)
                        else
                          match SC16IS7XX_ReceiveChar T fuel u6 che1 with
                          | (e7, v2, che2, u7) =>
                            if e7 ≠ ERR_OK then (e7, u7)
                            else if che2 ≠ 0 then (ERR__PERIPHERAL_NOT_VALID, u7)
                            else if v2 ≠ (0xAA &&& 0x1F) then (ERR__PERIPHERAL_NOT_VALID, u7)
                            else
                              match SC16IS7XX_WriteRegister T u7.dev u7.Channel RegSC16IS7XX_MCR
                                  (RegMCR &&& 0xEF) with
                              | (e8, d8) => (e8, { u7 with dev := d8 })

/-! ## Initialization sequencer (SC16IS7XX_InitUART) -/

/-- Control-flow request selection of SC16IS7XX_InitUART (SC16IS7XX.c
lines 667-693): choose the hardware/software flow structure and the
address-character flag from the per-type configuration. -/
def initUARTflowSelection (conf : SC16IS7XX_UARTconfig) :
    Option SC16IS7XX_HardControlFlow × Option SC16IS7XX_SoftControlFlow × Bool :=
  match conf.UARTtype with
  | SC16IS7XX_UART_RS232 =>
    match conf.RS232_ControlFlowType with
    | SC16IS7XX_NO_CONTROL_FLOW => (none, none, false)
    | SC16IS7XX_HARDWARE_CONTROL_FLOW => (some conf.RS232_HardFlowControl, none, false)
    | SC16IS7XX_SOFTWARE_CONTROL_FLOW => (none, some conf.RS232_SoftFlowControl, false)
  | SC16IS7XX_UART_RS485 =>
    ((if conf.RS485_UseHardwareControlFlow then some conf.RS485_HardFlowControl else none),
     none,
     conf.RS485_AutoRS485mode = SC16IS7XX_AUTO_ADDRESS_DETECT)
  | SC16IS7XX_UART_IrDA =>
    (none,
     (if conf.IrDA_UseSoftwareControlFlow then some conf.IrDA_SoftFlowControl else none),
     false)
  | SC16IS7XX_UART_Modem =>
    ((if conf.Modem_UseHardwareControlFlow then some conf.Modem_HardFlowControl else none),
     none, false)

/-- Tail of SC16IS7XX_InitUART after the baud-rate step (SC16IS7XX.c
lines 647-703): FIFO configuration, IER restore, Tx/Rx per request,
optional loopback self-test (only when requested and both directions
enabled), control-flow configuration (skipped when no flow and no
special character are requested; the stale Error checked on line 696 is
ERR_OK on that path), TCR/TLR access disable and final interrupt
configuration. -/
def SC16IS7XX_InitUARTtail {σ : Type} (T : Transport σ) (fuel : ℕ) (u : SC16IS7XX_UART σ)
    (conf : SC16IS7XX_UARTconfig) (OriginalIER : ℕ) (berr : Option ℤ) :
    eERRORRESULT × Option ℤ × SC16IS7XX_UART σ :=
  match __SC16IS7XX_ConfigureFIFOs T u.dev u.Channel conf.UseFIFOs conf.TxTrigLvl conf.RxTrigLvl with
  | (e1, d1) =>
    let u := { u with dev := d1 }
    if e1 ≠ ERR_OK then (e1, berr, u)
    else
      match SC16IS7XX_WriteRegister T u.dev u.Channel RegSC16IS7XX_IER OriginalIER with
      | (e2, d2) =>
        let u := { u with dev := d2 }
        if e2 ≠ ERR_OK then (e2, berr, u)
        else
          match SC16IS7XX_TxRxDisable T u.dev u.Channel conf.DisableTransmitter conf.DisableReceiver with
          | (e3, d3) =>
            let u := { u with dev := d3 }
            if e3 ≠ ERR_OK then (e3, berr, u)
            else
              let (e4, u) :=
                if u.DriverConfig &&& SC16IS7XX_TEST_LOOPBACK_AT_INIT > 0 ∧
                   conf.DisableTransmitter = false ∧ conf.DisableReceiver = false
                then SC16IS7XX_UARTCommTest T fuel u
                else (ERR_OK, u)
              if e4 ≠ ERR_OK then (e4, berr, u)
              else
                let pSpecialChar := if conf.UseSpecialChar then some conf.SpecialChar else none
                match initUARTflowSelection conf with
                | (pHardFlow, pSoftFlow, UseAddressChar) =>
                  let (e5, u) :=
                    if pHardFlow.isSome ∨ pSoftFlow.isSome ∨ pSpecialChar.isSome then
                      match __SC16IS7XX_SetControlFlowConfiguration T u.dev u.Channel
                          pHardFlow pSoftFlow pSpecialChar UseAddressChar with
                      | (e, d) => (e, { u with dev := d })
                    else (ERR_OK, u)
                  if e5 ≠ ERR_OK then (e5, berr, u)
                  else
                    match SC16IS7XX_ModifyRegister T u.dev u.Channel RegSC16IS7XX_MCR 0x00 0x04 with
                    | (e6, d6) =>
                      let u := { u with dev := d6 }
                      if e6 ≠ ERR_OK then (e6, berr, u)
                      else
                        match SC16IS7XX_ConfigureInterrupt T u.dev u.Channel conf.Interrupts with
                        | (e7, d7) => (e7, berr, { u with dev := d7 })

/-- Embedding of SC16IS7XX_InitUART (SC16IS7XX.c lines 586-704):
channel validity checks, ring-buffer cursor reset, then the sequence
enhanced-functions enable, TCR/TLR access enable, IER save and
all-interrupts-disable, Tx/Rx disable, FIFO reset, control-flow
disable, UART type/format configuration, baud-rate programming, FIFO
configuration, IER restore, Tx/Rx per request, optional loopback test,
control-flow configuration, TCR/TLR access disable, interrupt
configuration.  Each failing step returns its error immediately.
The Option Int output models the UARTbaudrateError out-parameter. -/
def SC16IS7XX_InitUART {σ : Type} (T : Transport σ) (fuel devicePN xtal osc : ℕ)
    (u : SC16IS7XX_UART σ) (conf : SC16IS7XX_UARTconfig) :
    eERRORRESULT × Option ℤ × SC16IS7XX_UART σ :=
  if u.Channel ≥ 2 then (ERR__UNKNOWN_ELEMENT, none, u)
  else if u.Channel = 1 ∧ (SC16IS7XX_limitsOf devicePN).HAVE_2_UARTS = false then
    (ERR__UNKNOWN_ELEMENT, none, u)
  else
    let u := { u with
      TxBuffer := u.TxBuffer.map (fun (b : SC16IS7XX_Buffer) => ⟨b.data, b.BufferSize, 0, 0, false⟩),
      RxBuffer := u.RxBuffer.map (fun (b : SC16IS7XX_Buffer) => ⟨b.data, b.BufferSize, 0, 0, false⟩) }
    match SC16IS7XX_EnableEnhancedFunctions T u.dev u.Channel with
    | (e1, d1) =>
      let u := { u with dev := d1 }
      if e1 ≠ ERR_OK then (e1, none, u)
      else
        match SC16IS7XX_ModifyRegister T u.dev u.Channel RegSC16IS7XX_MCR 0x04 0x04 with
        | (e2, d2) =>
          let u := { u with dev := d2 }
          if e2 ≠ ERR_OK then (e2, none, u)
          else
            match SC16IS7XX_ReadRegister T u.dev u.Channel RegSC16IS7XX_IER with
            | (e3, OriginalIER, d3) =>
              let u := { u with dev := d3 }
              if e3 ≠ ERR_OK then (e3, none, u)
              else
                match SC16IS7XX_WriteRegister T u.dev u.Channel RegSC16IS7XX_IER 0x00 with
                | (e4, d4) =>
                  let u := { u with dev := d4 }
                  if e4 ≠ ERR_OK then (e4, none, u)
                  else
                    match SC16IS7XX_TxRxDisable T u.dev u.Channel true true with
                    | (e5, d5) =>
                      let u := { u with dev := d5 }
                      if e5 ≠ ERR_OK then (e5, none, u)
                      else
                        match SC16IS7XX_ResetFIFO T u.dev u.Channel true true with
                        | (e6, d6) =>
                          let u := { u with dev := d6 }
                          if e6 ≠ ERR_OK then (e6, none, u)
                          else
                            match __SC16IS7XX_SetControlFlowConfiguration T u.dev u.Channel
                                none none none false with
                            | (e7, d7) =>
                              let u := { u with dev := d7 }
                              if e7 ≠ ERR_OK then (e7, none, u)
                              else
                                match __SC16IS7XX_SetUARTConfiguration T u.dev u.Channel
                                    devicePN conf with
                                | (e8, d8) =>
                                  let u := { u with dev := d8 }
                                  if e8 ≠ ERR_OK then (e8, none, u)
                                  else
                                    match SC16IS7XX_SetUARTBaudRate T u.dev u.Channel
                                        devicePN xtal osc conf with
                                    | (e9, berr, d9) =>
                                      let u := { u with dev := d9 }
                                      if e9 ≠ ERR_OK then (e9, berr, u)
                                      else SC16IS7XX_InitUARTtail T fuel u conf OriginalIER berr


/-! ## Mock transports

ScriptState is a scripted oracle: successive register reads and writes
pop their results off two response lists (defaulting to success with
value 0), and every transport interaction is logged.  SimDevice is a
small register-level device simulator used for the loopback and
ring-buffer scenarios. -/

inductive ScriptEvent where
  | read (channel addr count : ℕ) (result : eERRORRESULT) (value : ℕ)
  | write (channel addr value : ℕ) (result : eERRORRESULT)
  | mark (setAccess : Bool) (channel : ℕ)
deriving DecidableEq, Repr

structure ScriptState where
  readRs : List (eERRORRESULT × ℕ)
  writeRs : List eERRORRESULT
  log : List ScriptEvent
deriving DecidableEq, Repr

/-- The scripted oracle transport. -/
def scriptTransport : Transport ScriptState :=
  ⟨fun s ch addr count =>
      let r := s.readRs.headD (ERR_OK, 0)
      (r.1, List.replicate count r.2,
       ⟨s.readRs.tail, s.writeRs, s.log ++ [ScriptEvent.read ch addr count r.1 r.2]⟩),
   fun s ch addr vals =>
      let e := s.writeRs.headD ERR_OK
      (e, ⟨s.readRs, s.writeRs.tail, s.log ++ [ScriptEvent.write ch addr (vals.headD 0) e]⟩),
   fun s b ch => ⟨s.readRs, s.writeRs, s.log ++ [ScriptEvent.mark b ch]⟩⟩

/-- Number of SC16IS7XX_SetRegisterAccess calls recorded in a script log. -/
def countSetMarks (log : List ScriptEvent) : ℕ :=
  log.countP (fun ev => match ev with | ScriptEvent.mark true _ => true | _ => false)

/-- Number of SC16IS7XX_ReturnAccessToGeneralRegister calls recorded in
a script log. -/
def countRetMarks (log : List ScriptEvent) : ℕ :=
  log.countP (fun ev => match ev with | ScriptEvent.mark false _ => true | _ => false)

/-- Number of register writes issued to the transport in a script log. -/
def countWrites (log : List ScriptEvent) : ℕ :=
  log.countP (fun ev => match ev with | ScriptEvent.write _ _ _ _ => true | _ => false)

/-- Register-level device simulator.  Reads and writes always succeed;
the THR echoes into the Rx FIFO through echo when the MCR loopback bit
is set (internal loopback); the LSR reports THR/TSR empty plus the
configured error bits; TXLVL pops a script (default 64); an FCR write
with the Rx-reset bit clears the Rx FIFO; IIR reads as 0xC1 (FIFOs
enabled).  txReceived accumulates every byte the hardware Tx FIFO ever
received, in order. -/
structure SimDevice where
  mcr : ℕ
  lcr : ℕ
  ier : ℕ
  lsrErrorBits : ℕ
  rxfifo : List ℕ
  txReceived : List ℕ
  txlvl : List ℕ
  echo : Option (ℕ → ℕ)

/-- The device-simulator transport. -/
def simTransport : Transport SimDevice :=
  ⟨fun s ch addr count =>
     if addr = 0x00 then
       (ERR_OK, (List.range count).map (fun i => s.rxfifo.getD i 0),
        { s with rxfifo := s.rxfifo.drop count })
     else if addr = 0x01 then (ERR_OK, List.replicate count s.ier, s)
     else if addr = 0x02 then (ERR_OK, List.replicate count 0xC1, s)
     else if addr = 0x03 then (ERR_OK, List.replicate count s.lcr, s)
     else if addr = 0x04 then (ERR_OK, List.replicate count s.mcr, s)
     else if addr = 0x05 then (ERR_OK, List.replicate count (0x60 ||| s.lsrErrorBits), s)
     else if addr = 0x08 then
       (ERR_OK, List.replicate count (s.txlvl.headD 64), { s with txlvl := s.txlvl.tail })
     else if addr = 0x09 then (ERR_OK, List.replicate count s.rxfifo.length, s)
     else (ERR_OK, List.replicate count 0, s),
   fun s ch addr vals =>
     if addr = 0x00 then
       (ERR_OK, { s with
          txReceived := s.txReceived ++ vals,
          rxfifo := s.rxfifo ++
            (if s.mcr &&& 0x10 ≠ 0 then
               (match s.echo with | some f => vals.map f | none => []) else []) })
     else if addr = 0x01 then (ERR_OK, { s with ier := vals.headD 0 })
     else if addr = 0x02 then
       (ERR_OK, if (vals.headD 0) &&& 0x2 ≠ 0 then { s with rxfifo := [] } else s)
     else if addr = 0x03 then (ERR_OK, { s with lcr := vals.headD 0 })
     else if addr = 0x04 then (ERR_OK, { s with mcr := vals.headD 0 })
     else (ERR_OK, s),
   fun s _ _ => s⟩

/-! ## Script-log analysis for the initialization-order property -/

/-- Write events of a script log annotated with the LCR value in force
before each write (register-bank tracking: a write to address 3 sets
the LCR, hence the visible register bank).  Entries are
(bank, address, value). -/
def bankedWrites : List ScriptEvent → ℕ → List (ℕ × ℕ × ℕ)
  | [], _ => []
  | ScriptEvent.write ch addr v _ :: rest, bank =>
    (bank, addr, v) :: bankedWrites rest (if addr = RegSC16IS7XX_LCR then v else bank)
  | _ :: rest, bank => bankedWrites rest bank

/-- The interrupt-disabling write: value 0x00 to the IER in the general
register bank. -/
def isIERdisableWrite (w : ℕ × ℕ × ℕ) : Bool :=
  (w.1 &&& 0x80 == 0) && (w.2.1 == RegSC16IS7XX_IER) && (w.2.2 == 0)

/-- The transmitter/receiver disabling write: EFCR write with both
disable bits set. -/
def isTxRxDisableWrite (w : ℕ × ℕ × ℕ) : Bool :=
  (w.2.1 == RegSC16IS7XX_EFCR) && (w.2.2 &&& 0x6 == 0x6)

/-- Baud-rate or line-format register writes of the concrete
initialization run: DLL or DLH in the special register bank, the MCR
write carrying the clock-divide bit (the run selects prescaler 4, so
the bit is set), and the LCR line-format write (the configured format
byte 0x03; the bank-switch writes carry 0x80/0xBF and the restores
rewrite the original value 0x00, so neither is matched). -/
def isBaudOrFormatWrite (w : ℕ × ℕ × ℕ) : Bool :=
  ((w.1 == 0x80) && (w.2.1 == RegSC16IS7XX_DLL || w.2.1 == RegSC16IS7XX_DLH))
  || ((w.2.1 == RegSC16IS7XX_MCR) && (w.2.2 &&& 0x80 == 0x80))
  || ((w.2.1 == RegSC16IS7XX_LCR) && (w.2.2 == 0x03))

/-- Ordering check over the annotated writes of an initialization run:
the IER-disable write and the Tx/Rx-disable write both occur, all four
kinds of baud-rate/line-format writes occur, and every
baud-rate/line-format write comes strictly after both disabling
writes. -/
def initOrderOK (ws : List (ℕ × ℕ × ℕ)) : Bool :=
  let iIER := ws.findIdx isIERdisableWrite
  let iTxRx := ws.findIdx isTxRxDisableWrite
  (iIER < ws.length) && (iTxRx < ws.length)
  && (ws.any (fun w => (w.1 == 0x80) && (w.2.1 == RegSC16IS7XX_DLL)))
  && (ws.any (fun w => (w.1 == 0x80) && (w.2.1 == RegSC16IS7XX_DLH)))
  && (ws.any (fun w => (w.2.1 == RegSC16IS7XX_MCR) && (w.2.2 &&& 0x80 == 0x80)))
  && (ws.any (fun w => (w.2.1 == RegSC16IS7XX_LCR) && (w.2.2 == 0x03)))
  && ((List.range ws.length).all (fun j =>
        !(isBaudOrFormatWrite (ws.getD j (0, 0, 0))) || ((iIER < j) && (iTxRx < j))))

/-! ## Scoped-register-access call counting

The following lemmas track the SetRegisterAccess / ReturnAccess call
marks through each register operation on the scripted oracle, leading
to the pairing theorem for __SC16IS7XX_SetControlFlowConfiguration over
every oracle (every transport success/failure pattern). -/

lemma marks_writeRegister (s : ScriptState) (ch a v : ℕ) :
    countSetMarks (SC16IS7XX_WriteRegister scriptTransport s ch a v).2.log = countSetMarks s.log ∧
    countRetMarks (SC16IS7XX_WriteRegister scriptTransport s ch a v).2.log = countRetMarks s.log := by
  simp [SC16IS7XX_WriteRegister, __SC16IS7XX_WriteData, scriptTransport,
    countSetMarks, countRetMarks, List.countP_append]

lemma marks_readRegister (s : ScriptState) (ch a : ℕ) :
    countSetMarks (SC16IS7XX_ReadRegister scriptTransport s ch a).2.2.log = countSetMarks s.log ∧
    countRetMarks (SC16IS7XX_ReadRegister scriptTransport s ch a).2.2.log = countRetMarks s.log := by
  simp [SC16IS7XX_ReadRegister, __SC16IS7XX_ReadData, scriptTransport,
    countSetMarks, countRetMarks, List.countP_append]

lemma marks_modifyRegister (s : ScriptState) (ch a v m : ℕ) :
    countSetMarks (SC16IS7XX_ModifyRegister scriptTransport s ch a v m).2.log = countSetMarks s.log ∧
    countRetMarks (SC16IS7XX_ModifyRegister scriptTransport s ch a v m).2.log = countRetMarks s.log := by
  simp only [SC16IS7XX_ModifyRegister]
  rcases h : SC16IS7XX_ReadRegister scriptTransport s ch a with ⟨e, v1, s1⟩
  have hr := marks_readRegister s ch a
  rw [h] at hr
  dsimp only at hr
  split_ifs
  · exact hr
  · dsimp only
    have hw := marks_writeRegister s1 ch a ((v1 &&& (255 ^^^ m)) ||| (v &&& m))
    omega

lemma marks_setRegisterAccess (s : ScriptState) (ch acc : ℕ) :
    countSetMarks (SC16IS7XX_SetRegisterAccess scriptTransport s ch acc).2.2.log = countSetMarks s.log + 1 ∧
    countRetMarks (SC16IS7XX_SetRegisterAccess scriptTransport s ch acc).2.2.log = countRetMarks s.log := by
  simp [SC16IS7XX_SetRegisterAccess, SC16IS7XX_ReadRegister, SC16IS7XX_WriteRegister,
    __SC16IS7XX_ReadData, __SC16IS7XX_WriteData, scriptTransport]
  split_ifs <;>
    simp [countSetMarks, countRetMarks, List.countP_append]

lemma marks_returnAccess (s : ScriptState) (ch lcr : ℕ) :
    countSetMarks (SC16IS7XX_ReturnAccessToGeneralRegister scriptTransport s ch lcr).2.log = countSetMarks s.log ∧
    countRetMarks (SC16IS7XX_ReturnAccessToGeneralRegister scriptTransport s ch lcr).2.log = countRetMarks s.log + 1 := by
  simp [SC16IS7XX_ReturnAccessToGeneralRegister, SC16IS7XX_WriteRegister,
    __SC16IS7XX_WriteData, scriptTransport, countSetMarks, countRetMarks, List.countP_append]

lemma marks_specialAndEFR (s : ScriptState) (ch : ℕ) (sp : Option ℕ) (r : ℕ) (er : eERRORRESULT) :
    countSetMarks (controlFlowSpecialAndEFR scriptTransport s ch sp r er).2.log = countSetMarks s.log ∧
    countRetMarks (controlFlowSpecialAndEFR scriptTransport s ch sp r er).2.log = countRetMarks s.log := by
  rcases sp with _ | c <;>
    simp only [controlFlowSpecialAndEFR]
  · rcases h : SC16IS7XX_WriteRegister scriptTransport s ch RegSC16IS7XX_EFR r with ⟨e, s1⟩
    have hw := marks_writeRegister s ch RegSC16IS7XX_EFR r
    rw [h] at hw
    exact hw
  · rcases h1 : SC16IS7XX_WriteRegister scriptTransport s ch RegSC16IS7XX_XOFF2 c with ⟨e1, s1⟩
    have hw1 := marks_writeRegister s ch RegSC16IS7XX_XOFF2 c
    rw [h1] at hw1
    rcases h2 : SC16IS7XX_WriteRegister scriptTransport s1 ch RegSC16IS7XX_EFR (r ||| 0x20) with ⟨e2, s2⟩
    have hw2 := marks_writeRegister s1 ch RegSC16IS7XX_EFR (r ||| 0x20)
    rw [h2] at hw2
    dsimp only at hw1 hw2
    simp only [h1, h2]
    omega

lemma countSetMarks_append (l1 l2 : List ScriptEvent) :
    countSetMarks (l1 ++ l2) = countSetMarks l1 + countSetMarks l2 := by
  simp [countSetMarks, List.countP_append]

lemma countRetMarks_append (l1 l2 : List ScriptEvent) :
    countRetMarks (l1 ++ l2) = countRetMarks l1 + countRetMarks l2 := by
  simp [countRetMarks, List.countP_append]

lemma marks_checkAndWriteTCR (s : ScriptState) (ch hv rv : ℕ) :
    countSetMarks (controlFlowCheckAndWriteTCR scriptTransport s ch hv rv).2.log = countSetMarks s.log ∧
    countRetMarks (controlFlowCheckAndWriteTCR scriptTransport s ch hv rv).2.log = countRetMarks s.log := by
  rcases hw : SC16IS7XX_WriteRegister scriptTransport s ch RegSC16IS7XX_TCR
      ((hv &&& 0xF) ||| ((rv <<< 4) &&& 0xF0)) with ⟨e, s1⟩
  have m := marks_writeRegister s ch RegSC16IS7XX_TCR ((hv &&& 0xF) ||| ((rv <<< 4) &&& 0xF0))
  rw [hw] at m; dsimp only at m
  simp only [controlFlowCheckAndWriteTCR, hw]
  split_ifs <;> first
    | exact ⟨rfl, rfl⟩
    | exact m

lemma marks_controlFlowWriteTCR (s : ScriptState) (ch : ℕ)
    (hf : Option SC16IS7XX_HardControlFlow) (sf : Option SC16IS7XX_SoftControlFlow) :
    countSetMarks (controlFlowWriteTCR scriptTransport s ch hf sf).2.log = countSetMarks s.log ∧
    countRetMarks (controlFlowWriteTCR scriptTransport s ch hf sf).2.log = countRetMarks s.log := by
  rcases hf with _ | hfv <;> rcases sf with _ | sfv
  · exact ⟨rfl, rfl⟩
  · exact marks_checkAndWriteTCR s ch sfv.HoldAt sfv.ResumeAt
  · exact marks_checkAndWriteTCR s ch hfv.HoldAt hfv.ResumeAt
  · exact marks_checkAndWriteTCR s ch hfv.HoldAt hfv.ResumeAt



lemma marksSet_write (s : ScriptState) (ch a v : ℕ) :
    countSetMarks (SC16IS7XX_WriteRegister scriptTransport s ch a v).2.log = countSetMarks s.log :=
  (marks_writeRegister s ch a v).1

lemma marksRet_write (s : ScriptState) (ch a v : ℕ) :
    countRetMarks (SC16IS7XX_WriteRegister scriptTransport s ch a v).2.log = countRetMarks s.log :=
  (marks_writeRegister s ch a v).2

lemma marksSet_specialAndEFR (s : ScriptState) (ch : ℕ) (sp : Option ℕ) (r : ℕ) (er : eERRORRESULT) :
    countSetMarks (controlFlowSpecialAndEFR scriptTransport s ch sp r er).2.log = countSetMarks s.log :=
  (marks_specialAndEFR s ch sp r er).1

lemma marksRet_specialAndEFR (s : ScriptState) (ch : ℕ) (sp : Option ℕ) (r : ℕ) (er : eERRORRESULT) :
    countRetMarks (controlFlowSpecialAndEFR scriptTransport s ch sp r er).2.log = countRetMarks s.log :=
  (marks_specialAndEFR s ch sp r er).2

lemma marks_controlFlowConfigBody (s : ScriptState) (ch : ℕ)
    (hf : Option SC16IS7XX_HardControlFlow) (sf : Option SC16IS7XX_SoftControlFlow)
    (sp : Option ℕ) (ua : Bool) (r0 : ℕ) :
    countSetMarks (controlFlowConfigBody scriptTransport s ch hf sf sp ua r0).2.log = countSetMarks s.log ∧
    countRetMarks (controlFlowConfigBody scriptTransport s ch hf sf sp ua r0).2.log = countRetMarks s.log := by
  rcases hf with _ | hfv <;> rcases sf with _ | sfv
  · exact marks_specialAndEFR s ch sp r0 ERR_OK
  · constructor <;>
      simp only [controlFlowConfigBody, marksSet_specialAndEFR, marksRet_specialAndEFR] <;>
      split_ifs <;>
      simp only [marksSet_write, marksRet_write]
  · constructor <;>
      simp only [controlFlowConfigBody, marksSet_specialAndEFR, marksRet_specialAndEFR]
  · constructor <;>
      simp only [controlFlowConfigBody, marksSet_specialAndEFR, marksRet_specialAndEFR]

lemma marksSet_setAccess (s : ScriptState) (ch acc : ℕ) :
    countSetMarks (SC16IS7XX_SetRegisterAccess scriptTransport s ch acc).2.2.log = countSetMarks s.log + 1 :=
  (marks_setRegisterAccess s ch acc).1

lemma marksRet_setAccess (s : ScriptState) (ch acc : ℕ) :
    countRetMarks (SC16IS7XX_SetRegisterAccess scriptTransport s ch acc).2.2.log = countRetMarks s.log :=
  (marks_setRegisterAccess s ch acc).2

lemma marksSet_returnAccess (s : ScriptState) (ch lcr : ℕ) :
    countSetMarks (SC16IS7XX_ReturnAccessToGeneralRegister scriptTransport s ch lcr).2.log = countSetMarks s.log :=
  (marks_returnAccess s ch lcr).1

lemma marksRet_returnAccess (s : ScriptState) (ch lcr : ℕ) :
    countRetMarks (SC16IS7XX_ReturnAccessToGeneralRegister scriptTransport s ch lcr).2.log = countRetMarks s.log + 1 :=
  (marks_returnAccess s ch lcr).2

lemma marksSet_modify (s : ScriptState) (ch a v m : ℕ) :
    countSetMarks (SC16IS7XX_ModifyRegister scriptTransport s ch a v m).2.log = countSetMarks s.log :=
  (marks_modifyRegister s ch a v m).1

lemma marksRet_modify (s : ScriptState) (ch a v m : ℕ) :
    countRetMarks (SC16IS7XX_ModifyRegister scriptTransport s ch a v m).2.log = countRetMarks s.log :=
  (marks_modifyRegister s ch a v m).2

lemma marksSet_configBody (s : ScriptState) (ch : ℕ) (hf : Option SC16IS7XX_HardControlFlow)
    (sf : Option SC16IS7XX_SoftControlFlow) (sp : Option ℕ) (ua : Bool) (r0 : ℕ) :
    countSetMarks (controlFlowConfigBody scriptTransport s ch hf sf sp ua r0).2.log = countSetMarks s.log :=
  (marks_controlFlowConfigBody s ch hf sf sp ua r0).1

lemma marksRet_configBody (s : ScriptState) (ch : ℕ) (hf : Option SC16IS7XX_HardControlFlow)
    (sf : Option SC16IS7XX_SoftControlFlow) (sp : Option ℕ) (ua : Bool) (r0 : ℕ) :
    countRetMarks (controlFlowConfigBody scriptTransport s ch hf sf sp ua r0).2.log = countRetMarks s.log :=
  (marks_controlFlowConfigBody s ch hf sf sp ua r0).2

theorem marks_controlFlowConfiguration (s : ScriptState) (ch : ℕ)
    (hf : Option SC16IS7XX_HardControlFlow) (sf : Option SC16IS7XX_SoftControlFlow)
    (sp : Option ℕ) (ua : Bool) :
    countSetMarks (__SC16IS7XX_SetControlFlowConfiguration scriptTransport s ch hf sf sp ua).2.log
      + countRetMarks s.log
    = countRetMarks (__SC16IS7XX_SetControlFlowConfiguration scriptTransport s ch hf sf sp ua).2.log
      + countSetMarks s.log := by
  by_cases hguard : hf.isSome ∧ sf.isSome
  · simp only [__SC16IS7XX_SetControlFlowConfiguration, if_pos hguard]
    omega
  · simp only [__SC16IS7XX_SetControlFlowConfiguration, if_neg hguard]
    rcases htcr : controlFlowWriteTCR scriptTransport s ch hf sf with ⟨o, s1⟩
    have mt := marks_controlFlowWriteTCR s ch hf sf
    rw [htcr] at mt; dsimp only at mt
    rcases o with _ | err
    · dsimp only
      split_ifs <;>
        simp only [marksSet_setAccess, marksRet_setAccess, marksSet_configBody, marksRet_configBody,
          marksSet_returnAccess, marksRet_returnAccess, marksSet_modify, marksRet_modify] <;>
        omega
    · dsimp only
      omega

/-! ## Concrete scenario runs -/

/-- A scripted oracle with empty response lists: every register
operation succeeds, every read returns 0. -/
def blankScript : ScriptState := ⟨[], [], []⟩

/-- Successful SC16IS7XX_EnableEnhancedFunctions run on the all-OK oracle. -/
def runC2enh := SC16IS7XX_EnableEnhancedFunctions scriptTransport blankScript 0

/-- Successful SC16IS7XX_SetUARTBaudRate run on the all-OK oracle
(crystal 1.8432 MHz, 9600 baud, default RS-232 configuration). -/
def runC2baud := SC16IS7XX_SetUARTBaudRate scriptTransport blankScript 0 0 1843200 0 {}

/-- SC16IS7XX_EnableEnhancedFunctions run where the LCR read succeeds
(value 0x1D) and the following EFR read fails with ERR__NOT_READY. -/
def runC2fail :=
  SC16IS7XX_EnableEnhancedFunctions scriptTransport ⟨[(ERR_OK, 0x1D), (ERR__NOT_READY, 0)], [], []⟩ 0

/-- Hardware flow-control request with HoldAt 2 > ResumeAt 1. -/
def hardFlowC4 : SC16IS7XX_HardControlFlow := { HoldAt := 2, ResumeAt := 1 }

/-- Control-flow configuration requesting a hardware flow, an explicit
special character 0x2A and RS-485 address-character detection at once,
on the all-OK oracle. -/
def runC4 :=
  __SC16IS7XX_SetControlFlowConfiguration scriptTransport blankScript 0
    (some hardFlowC4) none (some 0x2A) true

/-- SC16IS7XX_SetUARTBaudRate run with a crystal of 1 kHz (below the
1.6 kHz minimum) on the all-OK oracle. -/
def runC7reject := SC16IS7XX_SetUARTBaudRate scriptTransport blankScript 0 0 1000 0 {}

/-- Complete SC16IS7XX_InitUART run on the all-OK oracle: part number 0
(SC16IS740), crystal 1.8432 MHz, channel A, default RS-232 9600-baud
8N1 configuration, FIFOs enabled, no flow control, no loopback test. -/
def runC8 := SC16IS7XX_InitUART scriptTransport 4 0 1843200 0 ⟨blankScript, 0, 0, none, none⟩ {}

/-- Loopback device with a faithful echo and clean line status. -/
def simC6ok : SimDevice := ⟨0, 0, 0, 0, [], [], [], some id⟩

/-- SC16IS7XX_UARTCommTest on the faithful-echo device
(safe Tx and Rx driver configuration, no ring buffers). -/
def runC6ok := SC16IS7XX_UARTCommTest simTransport 4 ⟨simC6ok, 0, 3, none, none⟩

/-- Loopback device whose echo corrupts each byte (bit 0 flipped). -/
def simC6bad : SimDevice := ⟨0, 0, 0, 0, [], [], [], some (fun v => v ^^^ 0x01)⟩

/-- SC16IS7XX_UARTCommTest on the corrupted-echo device. -/
def runC6bad := SC16IS7XX_UARTCommTest simTransport 4 ⟨simC6bad, 0, 3, none, none⟩

/-- Loopback device with a faithful echo but a parity-error line-status
flag on every received byte. -/
def simC6lsr : SimDevice := ⟨0, 0, 0, 0x04, [], [], [], some id⟩

/-- SC16IS7XX_UARTCommTest on the parity-error device. -/
def runC6lsr := SC16IS7XX_UARTCommTest simTransport 4 ⟨simC6lsr, 0, 3, none, none⟩

/-- Tx scenario device: empty FIFO queues, TXLVL script returning 0
free bytes for the first two reads and 64 afterwards. -/
def simC3 : SimDevice := ⟨0, 0, 0, 0, [], [], [0, 0], none⟩

/-- Tx ring buffer of capacity 8, empty, with both cursors at offset 6
(wrap-around two bytes before the end of the array). -/
def bufC3 : SC16IS7XX_Buffer := ⟨List.replicate 8 0, 8, 6, 6, false⟩

/-- First burst-mode transmit call: pushes the contiguous chunk [1, 2]
into the ring (FIFO reports no space, so nothing is drained). -/
def runC3push1 := SC16IS7XX_TransmitData simTransport ⟨simC3, 0, 0, some bufC3, none⟩ [1, 2, 3, 4]

/-- Second transmit call: pushes the remaining [3, 4]. -/
def runC3push2 := SC16IS7XX_TransmitData simTransport runC3push1.2.2 [3, 4]

/-- Third transmit call with no new data (the flush idiom of
SC16IS7XX_FlushTxBufferToFIFO): drains the ring to the FIFO, which now
reports 64 free bytes. -/
def runC3drain := SC16IS7XX_TransmitData simTransport runC3push2.2.2 []

/-- Rx scenario device: hardware FIFO holds one byte 0xCC. -/
def simC5 : SimDevice := ⟨0, 0, 0, 0, [0xCC], [], [], none⟩

/-- Rx ring buffer of capacity 8 already holding [0xAA, 0xBB]
(PosOut 0, PosIn 2). -/
def bufC5 : SC16IS7XX_Buffer := ⟨[0xAA, 0xBB, 0, 0, 0, 0, 0, 0], 8, 2, 0, false⟩

/-- Burst-mode SC16IS7XX_ReceiveData call with caller capacity 4 on the
Rx scenario: the ring is pre-drained, then the FIFO byte flows through
the ring into the caller buffer. -/
def runC5 := SC16IS7XX_ReceiveData simTransport ⟨simC5, 0, 0, none, some bufC5⟩ 4 0

/-- Safe-mode receive device: FIFO holds [0x41, 0x42], every byte
reported with a parity-error flag. -/
def simC5safe : SimDevice := ⟨0, 0, 0, 0x04, [0x41, 0x42], [], [], none⟩

/-- Safe-mode SC16IS7XX_ReceiveData call with capacity 2 on the
erroring device: the batch aborts on the first byte. -/
def runC5safe := SC16IS7XX_ReceiveData simTransport ⟨simC5safe, 0, 2, none, none⟩ 2 0

/-! ## Claim theorems -/

/-- Claim C1, counterexample: at reference frequency 6400 Hz and baud
rate 100, the two candidates have equal (zero) error, yet the solver
selects prescaler 4, not prescaler 1 as the claim states for ties (the
source tests strict less-than, SC16IS7XX.c line 941). -/
theorem C1_tie_counterexample :
    ErrorPrescaler 1 6400 100 = ErrorPrescaler 4 6400 100 ∧
    baudChosenPrescaler 6400 100 = 4 := by
  constructor <;> with_unfolding_all decide

/-- Claim C1, amended: the solver evaluates the two candidates p = 1
and p = 4 with the clamped rounded divisor, picks the candidate whose
absolute scaled relative error is smaller or equal to the other's, and
on ties selects prescaler 4; the divisor programmed is the chosen
candidate's. -/
theorem C1_solver_selection : ∀ f b : ℕ,
    (baudChosenPrescaler f b = 1 ∨ baudChosenPrescaler f b = 4) ∧
    |ErrorPrescaler (baudChosenPrescaler f b) f b| ≤ |ErrorPrescaler 1 f b| ∧
    |ErrorPrescaler (baudChosenPrescaler f b) f b| ≤ |ErrorPrescaler 4 f b| ∧
    (|ErrorPrescaler 1 f b| = |ErrorPrescaler 4 f b| → baudChosenPrescaler f b = 4) ∧
    baudChosenDivisor f b = DivisorPrescaler (baudChosenPrescaler f b) f b := by
  intro f b
  unfold baudChosenPrescaler baudChosenDivisor
  split_ifs with h
  · exact ⟨Or.inl rfl, le_refl _, le_of_lt h, fun he => absurd he (ne_of_lt h), rfl⟩
  · exact ⟨Or.inr rfl, le_of_not_lt h, le_refl _, fun _ => rfl, rfl⟩

/-- Claim C1, witness: the selection theorem applied at the concrete
tie input f = 6400 Hz, b = 100 baud. -/
theorem C1_solver_selection_witness : baudChosenPrescaler 6400 100 = 4 :=
  (C1_solver_selection 6400 100).2.2.2.1 (by with_unfolding_all decide)

/-- Claim C9: for every reference frequency and baud rate, both
candidate divisors and the divisor actually programmed into DLL/DLH are
clamped into [1, 65535] and never 0. -/
theorem C9_divisor_clamped : ∀ f b : ℕ,
    (1 ≤ DivisorPrescaler 1 f b ∧ DivisorPrescaler 1 f b ≤ 65535) ∧
    (1 ≤ DivisorPrescaler 4 f b ∧ DivisorPrescaler 4 f b ≤ 65535) ∧
    1 ≤ baudChosenDivisor f b ∧ baudChosenDivisor f b ≤ 65535 ∧ baudChosenDivisor f b ≠ 0 := by
  have hp : ∀ p f b : ℕ, 1 ≤ DivisorPrescaler p f b ∧ DivisorPrescaler p f b ≤ 65535 := by
    intro p f b
    unfold DivisorPrescaler
    dsimp only
    split_ifs <;> omega
  intro f b
  have h1 := hp 1 f b
  have h4 := hp 4 f b
  have hc : baudChosenDivisor f b = DivisorPrescaler 1 f b ∨
      baudChosenDivisor f b = DivisorPrescaler 4 f b := by
    unfold baudChosenDivisor
    split_ifs <;> simp
  rcases hc with h | h <;> exact ⟨h1, h4, by omega, by omega, by omega⟩

/-- Claim C10: SC16IS7XX_SoftResetDevice turns a data-phase NACK of the
IOControl software-reset write into ERR_OK (the one place a data-phase
NACK survives __SC16IS7XX_WriteData unmapped, unlike the address-phase
NACK-on-data which becomes ERR__I2C_INVALID_ADDRESS), and propagates
every other write result unchanged. -/
theorem C10_soft_reset_nack :
    SC16IS7XX_SoftResetDevice ERR_OK ERR__I2C_NACK_DATA = ERR_OK ∧
    writeDataI2Cresult ERR_OK ERR__I2C_NACK_DATA = ERR__I2C_NACK_DATA ∧
    writeDataI2Cresult ERR__I2C_NACK_DATA ERR_OK = ERR__I2C_INVALID_ADDRESS ∧
    (∀ a d : eERRORRESULT, writeDataI2Cresult a d ≠ ERR__I2C_NACK_DATA →
      SC16IS7XX_SoftResetDevice a d = writeDataI2Cresult a d) := by
  refine ⟨by decide, by decide, by decide, ?_⟩
  intro a d h
  unfold SC16IS7XX_SoftResetDevice softResetFromWriteResult
  simp [h]

/-- Claim C10, witness: the propagation clause applied at a concrete
busy-transport result. -/
theorem C10_soft_reset_nack_witness :
    writeDataI2Cresult ERR_OK ERR__BUSY ≠ ERR__I2C_NACK_DATA ∧
    SC16IS7XX_SoftResetDevice ERR_OK ERR__BUSY = writeDataI2Cresult ERR_OK ERR__BUSY :=
  ⟨by decide, C10_soft_reset_nack.2.2.2 ERR_OK ERR__BUSY (by decide)⟩

/-- Claim C2, counterexample: SC16IS7XX_EnableEnhancedFunctions, on an
oracle whose EFR read fails after the bank switch succeeded, returns
the error with one SetRegisterAccess call and zero
ReturnAccessToGeneralRegister calls, leaving the device in the enhanced
register set (SC16IS7XX.c line 432 returns before the restore). -/
theorem C2_enhanced_error_skips_restore :
    runC2fail.1 = ERR__NOT_READY ∧
    countSetMarks runC2fail.2.log = 1 ∧
    countRetMarks runC2fail.2.log = 0 := by
  with_unfolding_all decide

/-- Claim C2, amended: __SC16IS7XX_SetControlFlowConfiguration invokes
ReturnAccessToGeneralRegister exactly once for every
SetRegisterAccess call on every success and error path of every
oracle; SC16IS7XX_EnableEnhancedFunctions and
SC16IS7XX_SetUARTBaudRate pair the two calls on their success paths,
but (per the counterexample) not on the error paths between the bank
switch and the restore. -/
theorem C2_scoped_access_pairing :
    (∀ (rs : List (eERRORRESULT × ℕ)) (ws : List eERRORRESULT) (ch : ℕ)
       (hf : Option SC16IS7XX_HardControlFlow) (sf : Option SC16IS7XX_SoftControlFlow)
       (sp : Option ℕ) (ua : Bool),
       countSetMarks (__SC16IS7XX_SetControlFlowConfiguration scriptTransport
           ⟨rs, ws, []⟩ ch hf sf sp ua).2.log
         = countRetMarks (__SC16IS7XX_SetControlFlowConfiguration scriptTransport
           ⟨rs, ws, []⟩ ch hf sf sp ua).2.log) ∧
    (runC2enh.1 = ERR_OK ∧ countSetMarks runC2enh.2.log = 1 ∧
      countRetMarks runC2enh.2.log = 1) ∧
    (runC2baud.1 = ERR_OK ∧ countSetMarks runC2baud.2.2.log = 1 ∧
      countRetMarks runC2baud.2.2.log = 1) := by
  refine ⟨?_, ?_, ?_⟩
  · intro rs ws ch hf sf sp ua
    have h := marks_controlFlowConfiguration ⟨rs, ws, []⟩ ch hf sf sp ua
    have h1 : countSetMarks (⟨rs, ws, []⟩ : ScriptState).log = 0 := rfl
    have h2 : countRetMarks (⟨rs, ws, []⟩ : ScriptState).log = 0 := rfl
    omega
  · with_unfolding_all decide
  · with_unfolding_all decide

/-- Claim C4, counterexample: requesting a hardware flow together with
an explicit special character and address-character detection returns
ERR__CONFIGURATION, but only after five register writes (TCR, the LCR
bank switch, Xoff2, EFR, the LCR restore) — not the zero writes the
claim states. -/
theorem C4_special_address_after_writes :
    runC4.1 = ERR__CONFIGURATION ∧
    countWrites runC4.2.log = 5 ∧
    countWrites runC4.2.log ≠ 0 := by
  decide

/-- Claim C4, amended: requesting both a hardware and a software flow
control is rejected with ERR__CONFIGURATION before any register
traffic on every oracle; requesting an explicit special character
together with address-character detection is rejected (with
ERR__CONFIGURATION) only on the hardware-flow path, and only after
register writes have been issued. -/
theorem C4_mutual_exclusion :
    (∀ (rs : List (eERRORRESULT × ℕ)) (ws : List eERRORRESULT) (ch : ℕ)
       (hfv : SC16IS7XX_HardControlFlow) (sfv : SC16IS7XX_SoftControlFlow)
       (sp : Option ℕ) (ua : Bool),
       (__SC16IS7XX_SetControlFlowConfiguration scriptTransport ⟨rs, ws, []⟩ ch
          (some hfv) (some sfv) sp ua).1 = ERR__CONFIGURATION ∧
       (__SC16IS7XX_SetControlFlowConfiguration scriptTransport ⟨rs, ws, []⟩ ch
          (some hfv) (some sfv) sp ua).2.log = []) ∧
    runC4.1 = ERR__CONFIGURATION ∧ 0 < countWrites runC4.2.log := by
  refine ⟨?_, by decide, by decide⟩
  intro rs ws ch hfv sfv sp ua
  constructor <;> simp [__SC16IS7XX_SetControlFlowConfiguration]

/-- Claim C7, counterexample: a device with crystal 12 MHz and
oscillator 40 MHz (both nonzero, both in range) passes both the
Init_SC16IS7XX frequency checks and the SC16IS7XX_SetUARTBaudRate
limit checks, although the claim demands rejection when both are
nonzero; and a 1 kHz crystal (below the 1.6 kHz minimum) passes the
Init_SC16IS7XX checks, which test only the upper bounds. -/
theorem C7_both_nonzero_accepted :
    Init_SC16IS7XX_deviceCheck 0 12000000 40000000 = none ∧
    SC16IS7XX_SetUARTBaudRate_limitsCheck 12000000 40000000 9600 = none ∧
    Init_SC16IS7XX_deviceCheck 0 1000 0 = none := by
  decide

/-- Claim C7, amended: Init_SC16IS7XX rejects exactly an unknown part
number, a nonzero frequency above its maximum (24 MHz crystal / 80 MHz
oscillator) and the both-zero case; SC16IS7XX_SetUARTBaudRate
additionally rejects nonzero frequencies below 1.6 kHz and baud rates
outside [100, 5000000]; when both frequencies are nonzero the crystal
takes precedence and no error is raised; and a failing check aborts
SC16IS7XX_SetUARTBaudRate before any register write. -/
theorem C7_frequency_checks :
    (∀ pn xtal osc : ℕ, Init_SC16IS7XX_deviceCheck pn xtal osc = none ↔
      pn < SC16IS7XX_PN_COUNT ∧ (xtal = 0 ∨ xtal ≤ SC16IS7XX_XTAL_FREQ_MAX) ∧
      (osc = 0 ∨ osc ≤ SC16IS7XX_OSC_FREQ_MAX) ∧ ¬(xtal = 0 ∧ osc = 0)) ∧
    (∀ xtal osc baud : ℕ, SC16IS7XX_SetUARTBaudRate_limitsCheck xtal osc baud = none ↔
      (xtal = 0 ∨ (SC16IS7XX_FREQ_MIN ≤ xtal ∧ xtal ≤ SC16IS7XX_XTAL_FREQ_MAX)) ∧
      (osc = 0 ∨ (SC16IS7XX_FREQ_MIN ≤ osc ∧ osc ≤ SC16IS7XX_OSC_FREQ_MAX)) ∧
      ¬(xtal = 0 ∧ osc = 0) ∧
      SC16IS7XX_BAUDRATE_MIN ≤ baud ∧ baud ≤ SC16IS7XX_BAUDRATE_MAX) ∧
    (runC7reject.1 = ERR__FREQUENCY_ERROR ∧ countWrites runC7reject.2.2.log = 0) := by
  refine ⟨?_, ?_, ?_⟩
  · intro pn xtal osc
    unfold Init_SC16IS7XX_deviceCheck SC16IS7XX_PN_COUNT SC16IS7XX_XTAL_FREQ_MAX
      SC16IS7XX_OSC_FREQ_MAX
    split_ifs <;> (simp_all; try omega)
  · intro xtal osc baud
    unfold SC16IS7XX_SetUARTBaudRate_limitsCheck SC16IS7XX_FREQ_MIN SC16IS7XX_XTAL_FREQ_MAX
      SC16IS7XX_OSC_FREQ_MAX SC16IS7XX_BAUDRATE_MIN SC16IS7XX_BAUDRATE_MAX
    dsimp only
    split_ifs <;> (simp_all; try omega)
  · with_unfolding_all decide

/-- Claim C8: in the successful SC16IS7XX_InitUART run on the scripted
oracle, the write of 0x00 to the IER (interrupts disabled) and the
EFCR write disabling transmitter and receiver both precede, in the
transport call order, every baud-rate register write (the MCR
clock-divide write, DLL and DLH in the special bank) and the LCR
line-format write. -/
theorem C8_init_ordering :
    runC8.1 = ERR_OK ∧ initOrderOK (bankedWrites runC8.2.2.dev.log 0) = true := by
  constructor <;> with_unfolding_all decide

/-- Claim C3 (code bug): with the Tx ring buffer of capacity 8 starting
at cursor offset 6, the four bytes [1, 2, 3, 4] are all accepted into
the ring (2 + 2), yet the burst drain forwards [1, 2, 0, 0, 0, 0] to
the hardware FIFO: the wrap-around chunk bound is computed as
BufferSize - PosIn instead of BufferSize - PosOut (SC16IS7XX.c line
1317), so the drain reads past the end of the array and skips the
buffered bytes 3 and 4. -/
theorem C3_tx_ring_wraparound_loss :
    runC3push1.2.1 = 2 ∧ runC3push2.2.1 = 2 ∧
    runC3drain.1 = ERR_OK ∧
    runC3drain.2.2.dev.txReceived = [1, 2, 0, 0, 0, 0] ∧
    runC3drain.2.2.dev.txReceived.take 4 ≠ [1, 2, 3, 4] := by
  decide

/-- Claim C5 (code bug): in the burst receive run with two bytes
pre-drained from the Rx ring buffer and one byte 0xCC in the hardware
FIFO, SC16IS7XX_ReceiveData returns actuallyReceived = 1 instead of 3
and the caller buffer holds [0xCC, 0xBB, 0, 0]: the pre-drained count
is zeroed (SC16IS7XX.c line 1474) and the second drain rewrites the
caller buffer from offset 0, overwriting the pre-drained 0xAA.  The
safe-mode abort clause of the claim does hold: the erroring safe-mode
batch reports the one delivered byte together with the parity-error
kind. -/
theorem C5_receive_predrain_lost :
    runC5.1 = ERR_OK ∧
    runC5.2.1 = [0xCC, 0xBB, 0, 0] ∧
    runC5.2.2.1 = 1 ∧
    runC5safe.1 = ERR__RECEIVE_ERROR ∧
    runC5safe.2.1 = [0x41, 0] ∧
    runC5safe.2.2.1 = 1 ∧
    runC5safe.2.2.2.1 = 0x04 := by
  decide

/-- Claim C6, counterexample: when the loopback echo corrupts the
first sentinel, SC16IS7XX_UARTCommTest returns
ERR__PERIPHERAL_NOT_VALID with the MCR loopback bit still set — the
failure exits never restore normal operating mode (SC16IS7XX.c lines
737-749 return before line 751); likewise a line-status error makes
the safe receive path return ERR__RECEIVE_ERROR (not the
peripheral-not-valid error the claim names) with loopback still
enabled. -/
theorem C6_loopback_left_enabled :
    runC6bad.1 = ERR__PERIPHERAL_NOT_VALID ∧
    runC6bad.2.dev.mcr &&& 0x10 = 0x10 ∧
    runC6lsr.1 = ERR__RECEIVE_ERROR ∧
    runC6lsr.2.dev.mcr &&& 0x10 = 0x10 := by
  decide

/-- Claim C6, amended: SC16IS7XX_UARTCommTest transmits the sentinels
0x55 and 0xAA masked to five bits (0x15, 0x0A) over the loopback,
returns ERR__PERIPHERAL_NOT_VALID when a received value differs,
surfaces a line-status error on the safe receive path as
ERR__RECEIVE_ERROR, and restores normal (non-loopback) mode only on
the success path. -/
theorem C6_loopback_test_behaviour :
    runC6ok.1 = ERR_OK ∧
    runC6ok.2.dev.mcr &&& 0x10 = 0 ∧
    runC6ok.2.dev.txReceived = [0x15, 0x0A] ∧
    runC6bad.1 = ERR__PERIPHERAL_NOT_VALID ∧
    runC6lsr.1 = ERR__RECEIVE_ERROR := by
  decide
